import Mathlib

/-!
# Automated pill dispenser firmware: shallow embedding and verified properties

The definitions below follow the C sources (`dispenser.h`, `storage.c`, `motor.c`,
`sensors.c`, `lora.c`, `main.c`).  Machine integers are natural numbers reduced
modulo `2^w` wherever the C type truncates; global variables become fields of an
explicit state; hardware (EEPROM, modem, sensors, clock) is an explicit input.
Console output (`printf`), the indicator LED, the watchdog refresh and the settle
delays (`sleep_ms`) have no effect on that state and are not modelled.  A power loss is
modelled by booting again (`boot`) from the EEPROM content of the moment.
-/

namespace PillDispenser

/-! ## Constants of `dispenser.h` and `storage.c` -/

def PILLS_TOTAL : Nat := 7
def DISPENSE_INTERVAL_MS : Nat := 30000
def PIEZO_DETECT_TIMEOUT_MS : Nat := 1000
def PIEZO_PIN : Nat := 27

def ERROR_NONE : Nat := 0x00
def ERROR_MOTOR_STUCK : Nat := 0x01
def ERROR_POWER_FAIL : Nat := 0x02
def ERROR_NO_PILL : Nat := 0x04
def ERROR_CALIB_FAIL : Nat := 0x08
def ERROR_TURNING_INTERRUPTED : Nat := 0x10

def INIT_MARKER : Nat := 0xDEADBEEF

def EEPROM_SIZE_BYTES : Nat := 32 * 1024
def STATE_ADDR : Nat := EEPROM_SIZE_BYTES - 64
def RECORD_SIZE : Nat := 21

/-- Controller states, `DispenserState` of `dispenser.h`. -/
inductive DispenserState where
  | STATE_WAIT_FOR_CALIBRATION
  | STATE_CALIBRATING
  | STATE_WAIT_FOR_START
  | STATE_DISPENSING
  | STATE_HANDLE_ERROR
  | STATE_SLEEP_INTERVAL
  | STATE_DONE
  deriving DecidableEq, Repr

/-- Link states, `lora_state_t` of `dispenser.h`. -/
inductive lora_state_t where
  | LORA_STATE_DISCONNECTED
  | LORA_STATE_CONNECTING
  | LORA_STATE_CONNECTED
  | LORA_STATE_ERROR
  deriving DecidableEq, Repr

/-- Message kinds, `lora_msg_type_t` of `dispenser.h`. -/
inductive lora_msg_type_t where
  | MSG_BOOT
  | MSG_CALIB_OK
  | MSG_CALIB_FAIL
  | MSG_PILL_OK
  | MSG_PILL_FAIL
  | MSG_ALL_DONE
  | MSG_POWER_FAIL
  | MSG_ERROR
  deriving DecidableEq, Repr

/-- The persisted record, the packed struct `dispenser_data_t` (21 bytes):
`uint32 init_marker; uint8 pills_left; uint8 is_calibrated; uint16 total_dispensed;
uint16 total_cycles; uint8 error_flags; uint8 is_rotating; uint8 dispense_log[7];
uint16 crc16`. -/
structure dispenser_data_t where
  init_marker : Nat
  pills_left : Nat
  is_calibrated : Nat
  total_dispensed : Nat
  total_cycles : Nat
  error_flags : Nat
  is_rotating : Nat
  dispense_log : List Nat
  crc16 : Nat
  deriving DecidableEq, Repr

/-- Every field holds a value of its C type. -/
def dispenser_data_t.Valid (d : dispenser_data_t) : Prop :=
  d.init_marker < 2 ^ 32 ∧ d.pills_left < 256 ∧ d.is_calibrated < 256 ∧
  d.total_dispensed < 65536 ∧ d.total_cycles < 65536 ∧ d.error_flags < 256 ∧
  d.is_rotating < 256 ∧ d.dispense_log.length = 7 ∧ (∀ x ∈ d.dispense_log, x < 256) ∧
  d.crc16 < 65536

instance (d : dispenser_data_t) : Decidable d.Valid := by
  unfold dispenser_data_t.Valid; infer_instance

/-- The all-zero record: a static `dispenser_data_t` before anything is stored in it,
and the result of `memset(data, 0, sizeof(dispenser_data_t))`. -/
def zero_data : dispenser_data_t :=
  { init_marker := 0, pills_left := 0, is_calibrated := 0, total_dispensed := 0,
    total_cycles := 0, error_flags := 0, is_rotating := 0,
    dispense_log := List.replicate 7 0, crc16 := 0 }

/-! ## `storage.c`: CRC-16 -/

/-- One iteration of the `while (length--)` loop of `crc16`:
`x = crc >> 8 ^ *data_p++; x ^= x >> 4;
crc = (crc << 8) ^ ((uint16_t)(x << 12)) ^ ((uint16_t)(x << 5)) ^ ((uint16_t)x);`
with `x` a `uint8_t` and `crc` a `uint16_t`. -/
def crc16_step (crc b : Nat) : Nat :=
  let x0 := ((crc >>> 8) ^^^ b) % 256
  let x := (x0 ^^^ (x0 >>> 4)) % 256
  ((crc <<< 8) ^^^ ((x <<< 12) % 65536) ^^^ ((x <<< 5) % 65536) ^^^ (x % 65536)) % 65536

/-- The loop of `crc16` started from an arbitrary register value. -/
def crc16_from (crc : Nat) (data : List Nat) : Nat :=
  data.foldl crc16_step crc

/-- `static uint16_t crc16(const uint8_t *data_p, size_t length)`, register
initialised to `0xFFFF`. -/
def crc16 (data : List Nat) : Nat :=
  crc16_from 0xFFFF data

/-! ## `storage.c`: byte-addressed EEPROM -/

/-- Content of the EEPROM: the byte stored at each address. -/
abbrev EEPROM := Nat → Nat

/-- `eeprom_write_block(addr, data, len)`: the `len` bytes of `data` are stored from
`addr` on (a faithful memory: every other address keeps its content). -/
def eeprom_write_block (e : EEPROM) (addr : Nat) (data : List Nat) : EEPROM :=
  fun a => if addr ≤ a ∧ a < addr + data.length then data.getD (a - addr) 0 % 256 else e a

/-- `eeprom_read_block(addr, data, len)`: the `len` bytes stored from `addr` on. -/
def eeprom_read_block (e : EEPROM) (addr len : Nat) : List Nat :=
  (List.range len).map (fun k => e (addr + k) % 256)

/-- An erased device: every byte reads `0xFF`. -/
def eeprom_erased : EEPROM := fun _ => 0xFF

/-- One bit of the byte at `addr` inverted, every other bit of the device unchanged. -/
def eeprom_flip_bit (e : EEPROM) (addr bit : Nat) : EEPROM :=
  fun a => if a = addr then (e a % 256) ^^^ (1 <<< bit) else e a

/-! ## `storage.c`: the record in memory (packed, little-endian) -/

/-- The 21 bytes of a `dispenser_data_t` object, as `memcpy(buffer, data, 21)` sees them. -/
def record_bytes (d : dispenser_data_t) : List Nat :=
  [d.init_marker % 256, d.init_marker / 256 % 256, d.init_marker / 65536 % 256,
   d.init_marker / 16777216 % 256,
   d.pills_left % 256, d.is_calibrated % 256,
   d.total_dispensed % 256, d.total_dispensed / 256 % 256,
   d.total_cycles % 256, d.total_cycles / 256 % 256,
   d.error_flags % 256, d.is_rotating % 256] ++
  (List.range 7).map (fun k => d.dispense_log.getD k 0 % 256) ++
  [d.crc16 % 256, d.crc16 / 256 % 256]

/-- The `dispenser_data_t` object whose 21 bytes are `b`, as the cast
`(dispenser_data_t *)buffer` and `memcpy(data, buffer, 21)` read them. -/
def record_of_bytes (b : List Nat) : dispenser_data_t :=
  { init_marker := b.getD 0 0 + 256 * b.getD 1 0 + 65536 * b.getD 2 0 + 16777216 * b.getD 3 0,
    pills_left := b.getD 4 0,
    is_calibrated := b.getD 5 0,
    total_dispensed := b.getD 6 0 + 256 * b.getD 7 0,
    total_cycles := b.getD 8 0 + 256 * b.getD 9 0,
    error_flags := b.getD 10 0,
    is_rotating := b.getD 11 0,
    dispense_log := (List.range 7).map (fun k => b.getD (12 + k) 0),
    crc16 := b.getD 19 0 + 256 * b.getD 20 0 }

/-- The buffer `storage_save` writes: the record's bytes with the CRC-16 of the first
19 placed in the last two, high byte first. -/
def save_buffer (d : dispenser_data_t) : List Nat :=
  let buffer := record_bytes d
  let crc := crc16 (buffer.take (RECORD_SIZE - 2))
  (buffer.set (RECORD_SIZE - 2) ((crc >>> 8) % 256)).set (RECORD_SIZE - 1) (crc % 256)

/-- `bool storage_save(const dispenser_data_t *data)`: write the buffer, read it back,
compare; returns the verdict and the new EEPROM content. -/
def storage_save (e : EEPROM) (d : dispenser_data_t) : Bool × EEPROM :=
  let buffer := save_buffer d
  let e1 := eeprom_write_block e STATE_ADDR buffer
  let verify := eeprom_read_block e1 STATE_ADDR RECORD_SIZE
  (decide (buffer = verify), e1)

/-- `bool storage_load(dispenser_data_t *data)`: `none` is the return value `false`
(and `*data` untouched), `some d` is `true` with `*data = d`. -/
def storage_load (e : EEPROM) : Option dispenser_data_t :=
  let buffer := eeprom_read_block e STATE_ADDR RECORD_SIZE
  let temp := record_of_bytes buffer
  if temp.init_marker ≠ INIT_MARKER then none
  else if crc16 buffer = 0 then some (record_of_bytes buffer)
  else none

/-- The record `storage_init_default` builds. -/
def default_data : dispenser_data_t :=
  { zero_data with
    init_marker := INIT_MARKER, pills_left := PILLS_TOTAL, is_calibrated := 0,
    total_dispensed := 0, total_cycles := 0, error_flags := ERROR_NONE, is_rotating := 0,
    dispense_log := List.replicate 7 0 }

/-- `void storage_init_default(dispenser_data_t *data)`: the fresh record and the
EEPROM after it was saved. -/
def storage_init_default (e : EEPROM) : dispenser_data_t × EEPROM :=
  (default_data, (storage_save e default_data).2)

/-! ## `storage.c`: the log ring -/

def LOG_START_ADDR : Nat := 0
def LOG_TOTAL_SIZE : Nat := 8192
def LOG_ENTRY_SIZE : Nat := 64
def MAX_LOG_ENTRIES : Nat := LOG_TOTAL_SIZE / LOG_ENTRY_SIZE
def MAX_STRING_LENGTH : Nat := 59

/-- The log store: the EEPROM and the static `current_log_index`. -/
structure LogStore where
  eeprom : EEPROM
  current_log_index : Nat

/-- `void storage_scan_logs(void)`: the new `current_log_index`, the first slot whose
first byte is `0` or `0xFF`, and 0 when there is none. -/
def storage_scan_logs (e : EEPROM) : Nat :=
  match (List.range MAX_LOG_ENTRIES).find? (fun i =>
      let buffer := eeprom_read_block e (LOG_START_ADDR + i * LOG_ENTRY_SIZE) LOG_ENTRY_SIZE
      decide (buffer.getD 0 0 = 0 ∨ buffer.getD 0 0 = 0xFF)) with
  | some i => i
  | none => 0

/-- `void storage_log_msg(const char *message)`; `message` holds the bytes of the C
string (it ends at the first 0 byte, or at the end of the list). -/
def storage_log_msg (message : List Nat) (s : LogStore) : LogStore :=
  let text := message.takeWhile (fun b => b ≠ 0)
  if text.length = 0 then s
  else
    let index := if s.current_log_index ≥ MAX_LOG_ENTRIES then 0 else s.current_log_index
    let len := if text.length > MAX_STRING_LENGTH then MAX_STRING_LENGTH else text.length
    let buffer0 := text.take len ++ List.replicate (LOG_ENTRY_SIZE - len) 0
    let crc := crc16 (buffer0.take (len + 1))
    let buffer := (buffer0.set (len + 1) ((crc >>> 8) % 256)).set (len + 2) (crc &&& 0xFF)
    let addr := LOG_START_ADDR + index * LOG_ENTRY_SIZE
    { eeprom := eeprom_write_block s.eeprom addr (buffer.take (len + 3)),
      current_log_index := index + 1 }

/-! ## `motor.c` -/

def STEPS_PER_REV : Nat := 4096
def STEPS_PER_SLOT : Nat := STEPS_PER_REV / 8

/-- The half-step table `step_sequence[8][4]`. -/
def step_sequence : List (List Nat) :=
  [[1, 0, 0, 0], [1, 1, 0, 0], [0, 1, 0, 0], [0, 1, 1, 0],
   [0, 0, 1, 0], [0, 0, 1, 1], [0, 0, 0, 1], [1, 0, 0, 1]]

/-- Motor driver state: the static `current_step_index` and the level last written to
each of the four coil pins. -/
structure Motor where
  current_step_index : Nat
  pins : List Nat
  deriving DecidableEq, Repr

/-- The driver after `motor_init`: index 0 (static initialiser), all coils low. -/
def motor_init : Motor := { current_step_index := 0, pins := [0, 0, 0, 0] }

/-- `static void step_one(int direction)`. -/
def step_one (direction : Int) (m : Motor) : Motor :=
  let idx := if direction > 0 then (m.current_step_index + 1) % 8
             else (m.current_step_index + 8 - 1) % 8
  { current_step_index := idx, pins := step_sequence.getD idx [0, 0, 0, 0] }

/-- `void motor_off(void)`. -/
def motor_off (m : Motor) : Motor := { m with pins := [0, 0, 0, 0] }

/-- What one run of `motor_calibrate` did: the driver state on return, the final
value of `safety_counter` (the number of search steps taken), and whether the
`Sensor not found` branch (the `break`) was taken. -/
structure CalibResult where
  motor : Motor
  safety_counter : Nat
  sensor_not_found : Bool
  deriving DecidableEq, Repr

/-- The `while (!opto_is_aligned())` loop of `motor_calibrate`.  `opto k` is the value
of the `k`-th call of `opto_is_aligned` (one call per loop test, so `k` is also the
current `safety_counter`).  The loop runs at most `STEPS_PER_REV * 3 + 1` times; the
first argument is a recursion budget, and the budget-exhausted case is not reached
from `motor_calibrate`. -/
def calibrate_search (opto : Nat → Bool) : Nat → Nat → Motor → CalibResult
  | 0, safety_counter, m =>
      { motor := m, safety_counter := safety_counter, sensor_not_found := true }
  | fuel + 1, safety_counter, m =>
      if opto safety_counter then
        { motor := m, safety_counter := safety_counter, sensor_not_found := false }
      else
        let m1 := step_one 1 m
        let safety_counter1 := safety_counter + 1
        if safety_counter1 > STEPS_PER_REV * 3 then
          { motor := m1, safety_counter := safety_counter1, sensor_not_found := true }
        else calibrate_search opto fuel safety_counter1 m1

/-- `void motor_calibrate(void)`: `STEPS_PER_REV + 200` unconditional steps, the search
loop, then `motor_off`. -/
def motor_calibrate (opto : Nat → Bool) (m : Motor) : CalibResult :=
  let m1 := Nat.iterate (step_one 1) (STEPS_PER_REV + 200) m
  let r := calibrate_search opto (STEPS_PER_REV * 3 + 1) 0 m1
  { r with motor := motor_off r.motor }

/-- `void motor_rotate_next(void)`: `STEPS_PER_SLOT` steps, then `motor_off`. -/
def motor_rotate_next (m : Motor) : Motor :=
  motor_off (Nat.iterate (step_one 1) STEPS_PER_SLOT m)

/-! ## `sensors.c` -/

/-- The SDK event mask of a falling edge. -/
def GPIO_IRQ_EDGE_FALL : Nat := 0x4

/-- `gpio_irq_handler(gpio, events)`: the new value of `pill_drop_flag`. -/
def gpio_irq_handler (gpio events : Nat) (pill_drop_flag : Bool) : Bool :=
  if gpio = PIEZO_PIN ∧ events &&& GPIO_IRQ_EDGE_FALL ≠ 0 then true else pill_drop_flag

/-- `void piezo_reset_flag(void)`: the new value of `pill_drop_flag`. -/
def piezo_reset_flag : Bool := false

/-- The outcome of one call of `piezo_pill_detected`: the value returned, `pill_drop_flag`
afterwards, the number of `sleep_ms(10)` calls made, and whether the call has returned
within the loop iterations examined. -/
structure PiezoResult where
  detected : Bool
  pill_drop_flag : Bool
  sleeps : Nat
  returned : Bool
deriving DecidableEq, Repr

/-- The polling loop of `piezo_pill_detected`, at its `k`-th loop test, `k` calls of
`sleep_ms(10)` after `start_time` was read.  The clock advances by the 10 ms of
`sleep_ms(10)` per iteration, so the `k`-th test reads `start_time + 10 * k` modulo
`2 ^ 32` from `to_ms_since_boot` and the `uint32_t` difference to `start_time` is
`(10 * k) % 2 ^ 32`, whatever `start_time` was.  `irq k` tells whether a falling edge on
the piezo pin interrupts before the `k`-th reading of the latch inside the loop.  When
the recursion budget runs out the loop is still running: `returned = false`. -/
def piezo_wait (irq : Nat → Bool) (timeout_ms : Nat) : Nat → Nat → Bool → PiezoResult
  | 0, k, flag => { detected := false, pill_drop_flag := flag, sleeps := k, returned := false }
  | fuel + 1, k, flag =>
      if (10 * k) % 2 ^ 32 < timeout_ms then
        let flag1 := if irq k then gpio_irq_handler PIEZO_PIN GPIO_IRQ_EDGE_FALL flag else flag
        if flag1 then
          { detected := true, pill_drop_flag := flag1, sleeps := k, returned := true }
        else piezo_wait irq timeout_ms fuel (k + 1) flag1
      else { detected := false, pill_drop_flag := flag, sleeps := k, returned := true }

/-- `bool piezo_pill_detected(uint32_t timeout_ms)`: the latch is tested first, then
polled until the timeout.  `timeout_ms` is a `uint32_t`, at most 4294967295; a budget of
`timeout_ms + 1` loop tests covers every call that returns (`piezo_pill_detected_returns`). -/
def piezo_pill_detected (irq : Nat → Bool) (timeout_ms : Nat) (pill_drop_flag : Bool) :
    PiezoResult :=
  if pill_drop_flag then
    { detected := true, pill_drop_flag := pill_drop_flag, sleeps := 0, returned := true }
  else piezo_wait irq timeout_ms (timeout_ms + 1) 0 pill_drop_flag

/-! ## `lora.c` -/

def LORA_APPKEY : String := "c24500f38e2104def45e59422db86803"
def LORA_CMD_BUFFER_SIZE : Nat := 128
def LORA_MSG_BUFFER_SIZE : Nat := 128

/-- The double-quote character of the `AT` command strings. -/
def dquote : String := String.singleton (Char.ofNat 34)

/-- Radio session: the static `lora_current_state`, the lines the modem will deliver
(one list of received lines per future command, those that arrive before that
command's timeout; none once the list is used up), and the command lines sent to the
modem so far. -/
structure Lora where
  lora_current_state : lora_state_t
  modem : List (List String)
  sent : List String

/-- `const char *get_msg_type_str(int type)`. -/
def get_msg_type_str (type : lora_msg_type_t) : String :=
  match type with
  | .MSG_BOOT => "BOOT"
  | .MSG_CALIB_OK => "CALIB_OK"
  | .MSG_CALIB_FAIL => "CALIB_FAIL"
  | .MSG_PILL_OK => "PILL_OK"
  | .MSG_PILL_FAIL => "PILL_FAIL"
  | .MSG_POWER_FAIL => "PWR_FAIL"
  | _ => "EVENT"

/-- `strstr(haystack, needle) != NULL` on character lists. -/
def strstr : List Char → List Char → Bool
  | [], needle => needle.isEmpty
  | c :: hay, needle => needle.isPrefixOf (c :: hay) || strstr hay needle

/-- The buffer `strstr` searches in `send_at_command`: the trailing carriage returns and
line feeds of the received line are overwritten with NUL, and the C string ends at the
first NUL. -/
def strip_line (line : String) : List Char :=
  let s := (line.data.reverse.dropWhile (fun c => c = Char.ofNat 13 ∨ c = Char.ofNat 10)).reverse
  s.takeWhile (fun c => c ≠ Char.ofNat 0)

/-- The response loop of `send_at_command` over the lines received before the
timeout: the first line holding `expected` gives `true`, a line holding
`Join failed` or `Please join` gives `false`, running out of lines is the timeout. -/
def at_response (expected : String) : List String → Bool
  | [] => false
  | line :: rest =>
      if line.data.length > 0 then
        let buffer := strip_line line
        if strstr buffer expected.data then true
        else if strstr buffer "Join failed".data then false
        else if strstr buffer "Please join".data then false
        else at_response expected rest
      else at_response expected rest

/-- `static bool send_at_command(cmd, expected, timeout_ms)`: the command line is
sent, then the modem's lines for this command are examined. -/
def send_at_command (cmd expected : String) (l : Lora) : Bool × Lora :=
  (at_response expected (l.modem.headD []),
   { l with modem := l.modem.tail, sent := l.sent ++ [cmd] })

/-- The three probes of `lora_init`. -/
def lora_init_loop : Nat → Lora → Bool × Lora
  | 0, l => (false, { l with lora_current_state := .LORA_STATE_ERROR })
  | n + 1, l =>
      let r := send_at_command "AT" "OK" l
      if r.1 then (true, { r.2 with lora_current_state := .LORA_STATE_DISCONNECTED })
      else lora_init_loop n r.2

/-- `bool lora_init(void)`. -/
def lora_init (l : Lora) : Bool × Lora := lora_init_loop 3 l

/-- The two `AT+JOIN` attempts of `lora_join_network`. -/
def lora_join_loop : Nat → Lora → Bool × Lora
  | 0, l => (false, { l with lora_current_state := .LORA_STATE_DISCONNECTED })
  | n + 1, l =>
      let r := send_at_command "AT+JOIN" "Done" l
      if r.1 then (true, { r.2 with lora_current_state := .LORA_STATE_CONNECTED })
      else lora_join_loop n r.2

/-- `bool lora_join_network(void)`. -/
def lora_join_network (l : Lora) : Bool × Lora :=
  if l.lora_current_state = .LORA_STATE_CONNECTED then (true, l)
  else
    let l0 := { l with lora_current_state := .LORA_STATE_CONNECTING }
    let r1 := send_at_command "AT+MODE=LWOTAA" "LWOTAA" l0
    if !r1.1 then (false, r1.2)
    else
      let cmd := String.mk
        (("AT+KEY=APPKEY," ++ dquote ++ LORA_APPKEY ++ dquote).data.take
          (LORA_CMD_BUFFER_SIZE - 1))
      let r2 := send_at_command cmd "KEY" r1.2
      if !r2.1 then (false, r2.2)
      else
        let r3 := send_at_command "AT+CLASS=A" "A" r2.2
        if !r3.1 then (false, r3.2)
        else
          let r4 := send_at_command "AT+PORT=8" "8" r3.2
          if !r4.1 then (false, r4.2)
          else lora_join_loop 2 r4.2

/-- `static bool lora_send_message(const char *msg)`. -/
def lora_send_message (msg : String) (l : Lora) : Bool × Lora :=
  if l.lora_current_state ≠ .LORA_STATE_CONNECTED then (false, l)
  else
    let cmd := String.mk
      (("AT+MSG=" ++ dquote ++ msg ++ dquote).data.take (LORA_CMD_BUFFER_SIZE - 1))
    send_at_command cmd "Done" l

/-- The `success_count` loop of `lora_send_status`: entries of the log equal to 1. -/
def success_count (d : dispenser_data_t) : Nat :=
  ((List.range 7).filter (fun i => d.dispense_log.getD i 0 = 1)).length

/-- The text `lora_send_status` formats into `msg` (`snprintf` into 128 bytes). -/
def status_msg (type : lora_msg_type_t) (d : dispenser_data_t) (uptime_sec : Nat) : String :=
  let text :=
    if type = .MSG_ALL_DONE then
      let fail_count : Int := 7 - (success_count d : Int)
      "[SUMMARY] Time:" ++ toString uptime_sec ++ "s OK:" ++ toString (success_count d) ++
        " Fail:" ++ toString fail_count ++ " Status:Refilling"
    else
      let slot0 : Int := 7 - (d.pills_left : Int)
      let slot : Int := if slot0 < 0 then 0 else slot0
      "[" ++ get_msg_type_str type ++ "] Time:" ++ toString uptime_sec ++ "s Slot:" ++
        toString slot ++ " Left:" ++ toString d.pills_left
  String.mk (text.data.take (LORA_MSG_BUFFER_SIZE - 1))

/-- `bool lora_send_status(lora_msg_type_t type, const dispenser_data_t *data)`;
`uptime_sec` is the clock reading `to_ms_since_boot(...) / 1000`. -/
def lora_send_status (type : lora_msg_type_t) (d : dispenser_data_t) (uptime_sec : Nat)
    (l : Lora) : Bool × Lora :=
  if l.lora_current_state ≠ .LORA_STATE_CONNECTED then (false, l)
  else lora_send_message (status_msg type d uptime_sec) l

/-! ## `main.c` -/

/-- The program state: the statics of `main.c` (`current_state`, `sys_data`,
`last_dispense_time`, `is_lora_online`), of `lora.c`, `motor.c` and `sensors.c`, and
the EEPROM content. -/
structure Machine where
  current_state : DispenserState
  sys_data : dispenser_data_t
  last_dispense_time : Nat
  is_lora_online : Bool
  eeprom : EEPROM
  lora : Lora
  motor : Motor
  pill_drop_flag : Bool

/-- What the environment supplies during one iteration of the main loop: the results
of `is_button_pressed` for the two buttons, the clock reading `to_ms_since_boot` (one
sample per iteration), the readings of the optical sensor during homing, whether the
piezo interrupt fires during the one-slot advance, and when it fires during the wait
for the drop. -/
structure Inputs where
  sw0 : Bool
  sw2 : Bool
  now : Nat
  opto : Nat → Bool
  drop_during_advance : Bool
  drop_during_wait : Nat → Bool

/-- `static void send_lora_safe(lora_msg_type_t type)`: the result of
`lora_send_status` is only printed. -/
def send_lora_safe (type : lora_msg_type_t) (uptime_sec : Nat) (m : Machine) : Machine :=
  if m.is_lora_online then
    { m with lora := (lora_send_status type m.sys_data uptime_sec m.lora).2 }
  else m

/-- `sys_data.error_flags &= ~flag` on the `uint8_t` field (`~flag` is a 32-bit `int`). -/
def clear_flag (error_flags flag : Nat) : Nat :=
  (error_flags &&& (0xFFFFFFFF ^^^ flag)) % 256

/-- `sys_data.error_flags |= flag` on the `uint8_t` field. -/
def set_flag (error_flags flag : Nat) : Nat :=
  (error_flags ||| flag) % 256

/-- `case STATE_CALIBRATING` of the main loop. -/
def step_calibrating (i : Inputs) (m : Machine) : Machine :=
  let d1 := { m.sys_data with is_rotating := 1 }
  let e1 := (storage_save m.eeprom d1).2
  let motor1 := (motor_calibrate i.opto m.motor).motor
  let d2 := { d1 with is_rotating := 0, is_calibrated := 1,
                      error_flags := clear_flag d1.error_flags ERROR_CALIB_FAIL }
  let e2 := (storage_save e1 d2).2
  let m1 := send_lora_safe .MSG_CALIB_OK (i.now / 1000)
    { m with sys_data := d2, eeprom := e2, motor := motor1 }
  { m1 with current_state := .STATE_WAIT_FOR_START }

/-- First part of `case STATE_DISPENSING`, up to the call of `piezo_pill_detected`:
`is_rotating = true` is saved, the latch is reset, the wheel advances one slot
(the interrupt may fire meanwhile), then `is_rotating = false` and `pills_left--`
are done on `sys_data` in RAM. -/
def dispensing_advance (i : Inputs) (m : Machine) : Machine :=
  let d1 := { m.sys_data with is_rotating := 1 }
  let e1 := (storage_save m.eeprom d1).2
  let flag0 := piezo_reset_flag
  let motor1 := motor_rotate_next m.motor
  let flag1 := if i.drop_during_advance then
      gpio_irq_handler PIEZO_PIN GPIO_IRQ_EDGE_FALL flag0 else flag0
  let d2 := { d1 with is_rotating := 0, pills_left := (d1.pills_left + 256 - 1) % 256 }
  { m with sys_data := d2, eeprom := e1, motor := motor1, pill_drop_flag := flag1 }

/-- The `uint8_t` array store `sys_data.dispense_log[slot] = v`, guarded by
`slot >= 0 && slot < 7`, with `int slot = PILLS_TOTAL - sys_data.pills_left - 1`. -/
def log_update (d : dispenser_data_t) (pill_detected : Bool) : List Nat :=
  let slot : Int := (PILLS_TOTAL : Int) - (d.pills_left : Int) - 1
  if 0 ≤ slot ∧ slot < 7 then
    d.dispense_log.set slot.toNat (if pill_detected then 1 else 0)
  else d.dispense_log

/-- Second part of `case STATE_DISPENSING`: the wait for the drop, the update of
flags, totals and log, the per-slot notification, and the save that follows.  At
`PIEZO_DETECT_TIMEOUT_MS` the call of `piezo_pill_detected` returns whatever the
interrupts (`piezo_pill_detected_returns`), so the step goes on with its result. -/
def dispensing_record (i : Inputs) (m : Machine) : Machine :=
  let r := piezo_pill_detected i.drop_during_wait PIEZO_DETECT_TIMEOUT_MS m.pill_drop_flag
  let pill_detected := r.detected
  let m1 := { m with pill_drop_flag := r.pill_drop_flag }
  let m2 :=
    if pill_detected then
      send_lora_safe .MSG_PILL_OK (i.now / 1000)
        { m1 with sys_data := { m1.sys_data with
            error_flags := clear_flag m1.sys_data.error_flags ERROR_NO_PILL,
            total_dispensed := (m1.sys_data.total_dispensed + 1) % 65536 } }
    else
      send_lora_safe .MSG_PILL_FAIL (i.now / 1000)
        { m1 with sys_data := { m1.sys_data with
            error_flags := set_flag m1.sys_data.error_flags ERROR_NO_PILL } }
  let d3 := { m2.sys_data with
      dispense_log := log_update m2.sys_data pill_detected,
      total_cycles := (m2.sys_data.total_cycles + 1) % 65536 }
  { m2 with sys_data := d3, eeprom := (storage_save m2.eeprom d3).2 }

/-- Last part of `case STATE_DISPENSING`: the completion check. -/
def dispensing_complete (i : Inputs) (m : Machine) : Machine :=
  if m.sys_data.pills_left ≤ 0 then
    let m1 := send_lora_safe .MSG_ALL_DONE (i.now / 1000) m
    let d := { m1.sys_data with pills_left := PILLS_TOTAL, error_flags := ERROR_NONE,
                                dispense_log := List.replicate 7 0 }
    { m1 with sys_data := d, eeprom := (storage_save m1.eeprom d).2,
              current_state := .STATE_WAIT_FOR_CALIBRATION }
  else if m.sys_data.error_flags &&& ERROR_NO_PILL ≠ 0 then
    { m with current_state := .STATE_HANDLE_ERROR }
  else
    { m with last_dispense_time := i.now, current_state := .STATE_SLEEP_INTERVAL }

/-- `case STATE_DISPENSING` of the main loop. -/
def step_dispensing (i : Inputs) (m : Machine) : Machine :=
  dispensing_complete i (dispensing_record i (dispensing_advance i m))

/-- One iteration of the `while (true)` loop of `main`. -/
def step (i : Inputs) (m : Machine) : Machine :=
  match m.current_state with
  | .STATE_WAIT_FOR_CALIBRATION =>
      if i.sw0 then { m with current_state := .STATE_CALIBRATING } else m
  | .STATE_CALIBRATING => step_calibrating i m
  | .STATE_WAIT_FOR_START =>
      if i.sw2 then { m with current_state := .STATE_DISPENSING } else m
  | .STATE_DISPENSING => step_dispensing i m
  | .STATE_HANDLE_ERROR =>
      { m with last_dispense_time := i.now, current_state := .STATE_SLEEP_INTERVAL }
  | .STATE_SLEEP_INTERVAL =>
      if (i.now + 2 ^ 32 - m.last_dispense_time) % 2 ^ 32 ≥ DISPENSE_INTERVAL_MS ∨ i.sw2 then
        { m with current_state := .STATE_DISPENSING }
      else m
  | .STATE_DONE => { m with current_state := .STATE_WAIT_FOR_CALIBRATION }

/-- `static void lora_init_and_join(void)`. -/
def lora_init_and_join (uptime_sec : Nat) (m : Machine) : Machine :=
  let r := lora_init m.lora
  if !r.1 then { m with lora := r.2, is_lora_online := false }
  else
    let j := lora_join_network r.2
    if j.1 then
      send_lora_safe .MSG_BOOT uptime_sec { m with lora := j.2, is_lora_online := true }
    else { m with lora := j.2, is_lora_online := false }

/-- `static void restore_state(void)`. -/
def restore_state (uptime_sec : Nat) (m : Machine) : Machine :=
  match storage_load m.eeprom with
  | none =>
      let r := storage_init_default m.eeprom
      { m with sys_data := r.1, eeprom := r.2 }
  | some d =>
      if d.is_rotating ≠ 0 then
        let d1 := { d with error_flags := set_flag d.error_flags ERROR_TURNING_INTERRUPTED,
                           is_rotating := 0 }
        let m1 := send_lora_safe .MSG_POWER_FAIL uptime_sec
          { m with sys_data := d1, eeprom := (storage_save m.eeprom d1).2 }
        { m1 with current_state := .STATE_CALIBRATING }
      else if d.pills_left ≤ 0 then
        { m with sys_data := d, current_state := .STATE_WAIT_FOR_CALIBRATION }
      else
        { m with sys_data := d, current_state := .STATE_WAIT_FOR_CALIBRATION }

/-- The program state at power-on: statics at their initialisers, the EEPROM holding
what it held when power was lost, the modem about to behave as `modem`. -/
def power_on (e : EEPROM) (modem : List (List String)) : Machine :=
  { current_state := .STATE_WAIT_FOR_CALIBRATION,
    sys_data := zero_data,
    last_dispense_time := 0,
    is_lora_online := false,
    eeprom := e,
    lora := { lora_current_state := .LORA_STATE_DISCONNECTED, modem := modem, sent := [] },
    motor := motor_init,
    pill_drop_flag := false }

/-- The part of `system_init` that touches the program state: when SW0 is held at boot
the EEPROM is wiped to the default record. -/
def system_init (sw0_held : Bool) (m : Machine) : Machine :=
  if sw0_held then
    { m with sys_data := (storage_init_default m.eeprom).1,
             eeprom := (storage_init_default m.eeprom).2 }
  else m

/-- The first statement of `main` after `system_init`:
`if (!storage_load(&sys_data)) storage_init_default(&sys_data);`. -/
def load_or_default (m : Machine) : Machine :=
  match storage_load m.eeprom with
  | some d => { m with sys_data := d }
  | none => { m with sys_data := (storage_init_default m.eeprom).1,
                     eeprom := (storage_init_default m.eeprom).2 }

/-- `main` up to the `while (true)` loop: `system_init`, the first load,
`lora_init_and_join`, `restore_state`. -/
def boot (sw0_held : Bool) (uptime_sec : Nat) (e : EEPROM) (modem : List (List String)) :
    Machine :=
  restore_state uptime_sec (lora_init_and_join uptime_sec
    (load_or_default (system_init sw0_held (power_on e modem))))

/-- The main loop run over a list of per-iteration inputs. -/
def run (is : List Inputs) (m : Machine) : Machine :=
  is.foldl (fun m i => step i m) m

/-! ## Auxiliary definitions used in the statements -/

/-- The record slot of the EEPROM holds exactly the block `storage_save` writes for `d`. -/
def persisted (e : EEPROM) (d : dispenser_data_t) : Prop :=
  eeprom_read_block e STATE_ADDR RECORD_SIZE = save_buffer d

instance (e : EEPROM) (d : dispenser_data_t) : Decidable (persisted e d) := by
  unfold persisted; infer_instance

/-- The value the `crc16` field takes when the block saved for `d` is read back as a
`dispenser_data_t`: the stored code, whose high byte comes first in memory. -/
def stored_crc_field (d : dispenser_data_t) : Nat :=
  (crc16 ((record_bytes d).take 19) >>> 8) % 256 + 256 * (crc16 ((record_bytes d).take 19) % 256)

/-- The error pattern of a single inverted bit: 21 bytes, all zero but bit `i % 8` of
byte `i / 8`. -/
def flip_mask (i : Nat) : List Nat :=
  (List.range 21).map (fun k => if k = i / 8 then 1 <<< (i % 8) else 0)

/-- The value `piezo_pill_detected` returns in a Dispensing step under inputs `i`: the
latch is reset before the advance, so it depends on the inputs only. -/
def drop_detected (i : Inputs) : Bool :=
  (piezo_pill_detected i.drop_during_wait PIEZO_DETECT_TIMEOUT_MS
    (if i.drop_during_advance then
      gpio_irq_handler PIEZO_PIN GPIO_IRQ_EDGE_FALL piezo_reset_flag
     else piezo_reset_flag)).1

/-- Inputs of an iteration in which nothing happens: no button, no drop, the optical
reference never seen. -/
def quiet : Inputs :=
  { sw0 := false, sw2 := false, now := 0, opto := fun _ => false,
    drop_during_advance := false, drop_during_wait := fun _ => false }

/-- SW0 (calibrate) held down. -/
def press_sw0 : Inputs := { quiet with sw0 := true }

/-- SW2 (start / skip) held down. -/
def press_sw2 : Inputs := { quiet with sw2 := true }

/-- The optical reference is seen at the first reading. -/
def homing_ok : Inputs := { quiet with opto := fun _ => true }

/-- The pill drops while the wheel advances. -/
def pill_drops : Inputs := { quiet with drop_during_advance := true }

/-- The machine with its radio link replaced: `is_lora_online` and the session. -/
def with_link (online : Bool) (l : Lora) (m : Machine) : Machine :=
  { m with is_lora_online := online, lora := l }

/-- An EEPROM whose record slot holds the default record saved with `is_rotating = 1`,
as the first save of a Calibrating or Dispensing step leaves it. -/
def interrupted_eeprom : EEPROM :=
  (storage_save eeprom_erased { default_data with is_rotating := 1 }).2

/-- First boot of a device with an erased EEPROM and a silent modem. -/
def fresh_machine : Machine := boot false 0 eeprom_erased []

/-- The fresh device after SW0, a successful homing and SW2: about to dispense. -/
def ready_machine : Machine := run [press_sw0, homing_ok, press_sw2] fresh_machine

/-- The device after six doses, each dropped and each wait skipped with SW2: about to
dispense the seventh and last dose of the cycle. -/
def last_dose_machine : Machine :=
  run [pill_drops, press_sw2, pill_drops, press_sw2, pill_drops, press_sw2,
       pill_drops, press_sw2, pill_drops, press_sw2, pill_drops, press_sw2] ready_machine

/-- The device after one missed dose, the error indication and SW2: about to dispense
the second dose with the no-pill flag set. -/
def after_miss_machine : Machine := run [quiet, quiet, press_sw2] ready_machine

/-- A modem that accepts the four configuration commands and refuses the join twice. -/
def join_refused_link : Lora :=
  { lora_current_state := .LORA_STATE_DISCONNECTED,
    modem := [["+MODE: LWOTAA"], ["+KEY: APPKEY C24500F38E2104DEF45E59422DB86803"],
              ["+CLASS: A"], ["+PORT: 8"],
              ["+JOIN: Start", "+JOIN: NORMAL", "+JOIN: Join failed"], []],
    sent := [] }

/-- One dose: a Dispensing step of the controller once it is back in Dispensing.  The
iterations in between (HandleError, SleepInterval) change only `current_state` and
`last_dispense_time`. -/
def next_dose (i : Inputs) (m : Machine) : Machine :=
  step i { m with current_state := .STATE_DISPENSING }

/-- Successive doses, one per element of the list. -/
def doses (is : List Inputs) (m : Machine) : Machine :=
  is.foldl (fun m i => next_dose i m) m

/-- The record saved in a dose after the wait for the drop, before the completion check. -/
def dose_record (i : Inputs) (m : Machine) : Machine :=
  dispensing_record i (dispensing_advance i { m with current_state := .STATE_DISPENSING })

/-- The radio link is up: `is_lora_online` is set and the session is Connected. -/
def link_up (m : Machine) : Prop :=
  m.is_lora_online = true ∧ m.lora.lora_current_state = .LORA_STATE_CONNECTED

/-- A message as the callers pass it: a first byte that is neither the terminating 0 nor
`0xFF`. -/
def text_message (msg : List Nat) : Prop :=
  match msg with
  | b :: _ => 0 < b ∧ b < 255
  | [] => False

instance (msg : List Nat) : Decidable (text_message msg) := by
  unfold text_message; split <;> infer_instance

/-- The log store after the messages of a list were logged in turn. -/
def log_all (msgs : List (List Nat)) (s : LogStore) : LogStore :=
  msgs.foldl (fun s msg => storage_log_msg msg s) s

/-- The slot the next message goes to: `current_log_index`, or 0 when it ran off the
ring. -/
def next_slot (s : LogStore) : Nat :=
  if s.current_log_index ≥ MAX_LOG_ENTRIES then 0 else s.current_log_index

/-- The store of a device whose log ring is erased, at boot. -/
def erased_log : LogStore :=
  { eeprom := eeprom_erased, current_log_index := storage_scan_logs eeprom_erased }

/-- The state of the ring after `k` messages were logged on an erased device: the index
is past the slot of the last message, the first `k` slots (all of them from 128 on)
start with a message byte, the others are still erased. -/
def log_inv (k : Nat) (s : LogStore) : Prop :=
  s.current_log_index = (if k = 0 then 0 else (k - 1) % 128 + 1) ∧
  (∀ j, j < 128 → j < k → s.eeprom (j * 64) % 256 ≠ 0 ∧ s.eeprom (j * 64) % 256 ≠ 255) ∧
  (∀ j, j < 128 → k ≤ j → s.eeprom (j * 64) % 256 = 255)

/-! ## Theorems -/

/-! ### Storage: CRC-16 and the record store -/

theorem eeprom_read_write (e : EEPROM) (addr : Nat) (data : List Nat) :
    eeprom_read_block (eeprom_write_block e addr data) addr data.length
      = data.map (fun x => x % 256) := by
  apply List.ext_getElem
  · simp [eeprom_read_block]
  · intro i h1 h2
    simp [eeprom_read_block] at h1
    simp [eeprom_read_block, eeprom_write_block, h1, List.getD_eq_getElem]

theorem crc16_step_lt (c b : Nat) : crc16_step c b < 65536 := by
  unfold crc16_step
  exact Nat.mod_lt _ (by norm_num)

theorem crc16_step_residue (c : Nat) (hc : c < 65536) :
    crc16_step (crc16_step c ((c >>> 8) % 256)) (c % 256) = 0 := by
  have h1 : crc16_step c ((c >>> 8) % 256) = (c % 256) * 256 := by
    unfold crc16_step
    have : (c >>> 8) % 256 = c >>> 8 := by
      rw [Nat.shiftRight_eq_div_pow]; omega
    simp only [this, Nat.xor_self]
    simp [Nat.shiftLeft_eq]
    omega
  rw [h1]
  unfold crc16_step
  have : (c % 256 * 256) >>> 8 = c % 256 := by
    rw [Nat.shiftRight_eq_div_pow]; omega
  simp only [this, Nat.xor_self]
  simp [Nat.shiftLeft_eq]
  omega

theorem crc16_from_lt (c : Nat) (hc : c < 65536) (data : List Nat) :
    crc16_from c data < 65536 := by
  induction data generalizing c with
  | nil => simpa [crc16_from] using hc
  | cons b t ih =>
    have := ih (crc16_step c b) (crc16_step_lt c b)
    simpa [crc16_from] using this

theorem crc16_from_append (c : Nat) (xs ys : List Nat) :
    crc16_from c (xs ++ ys) = crc16_from (crc16_from c xs) ys := by
  simp [crc16_from, List.foldl_append]

theorem record_bytes_length (d : dispenser_data_t) : (record_bytes d).length = 21 := by
  simp [record_bytes]

theorem save_buffer_eq (d : dispenser_data_t) :
    save_buffer d = (record_bytes d).take 19 ++
      [(crc16 ((record_bytes d).take 19) >>> 8) % 256, crc16 ((record_bytes d).take 19) % 256] := by
  simp [save_buffer, record_bytes, RECORD_SIZE, List.range, List.range.loop]

theorem save_buffer_length (d : dispenser_data_t) : (save_buffer d).length = 21 := by
  simp [save_buffer, record_bytes_length]

theorem save_buffer_lt (d : dispenser_data_t) : ∀ x ∈ save_buffer d, x < 256 := by
  intro x hx
  rw [save_buffer_eq] at hx
  simp [record_bytes, List.range, List.range.loop] at hx
  omega

theorem crc16_save_buffer (d : dispenser_data_t) : crc16 (save_buffer d) = 0 := by
  rw [save_buffer_eq]
  unfold crc16
  rw [crc16_from_append]
  have hc := crc16_from_lt 0xFFFF (by norm_num) ((record_bytes d).take 19)
  generalize crc16_from 0xFFFF ((record_bytes d).take 19) = c at hc
  simpa [crc16_from] using crc16_step_residue c hc

theorem read_after_save (e : EEPROM) (d : dispenser_data_t) :
    eeprom_read_block (storage_save e d).2 STATE_ADDR RECORD_SIZE = save_buffer d := by
  have h := eeprom_read_write e STATE_ADDR (save_buffer d)
  rw [save_buffer_length] at h
  simp only [storage_save, RECORD_SIZE, h]
  have hid : (save_buffer d).map (fun x => x % 256) = (save_buffer d).map id :=
    List.map_congr_left (fun x hx => Nat.mod_eq_of_lt (save_buffer_lt d x hx))
  rw [hid, List.map_id]

theorem persisted_after_save (e : EEPROM) (d : dispenser_data_t) :
    persisted (storage_save e d).2 d :=
  read_after_save e d

theorem storage_save_ok (e : EEPROM) (d : dispenser_data_t) : (storage_save e d).1 = true := by
  have h := read_after_save e d
  simp only [storage_save] at h ⊢
  simp [h]

theorem record_of_save_buffer (d : dispenser_data_t) (hv : d.Valid) :
    record_of_bytes (save_buffer d) = { d with crc16 := stored_crc_field d } := by
  obtain ⟨h1, h2, h3, h4, h5, h6, h7, h8, h9, h10⟩ := hv
  unfold stored_crc_field
  rw [save_buffer_eq]
  generalize crc16 ((record_bytes d).take 19) = c
  obtain ⟨m, p, cal, td, tc, ef, rot, log, crc⟩ := d
  simp only at h1 h2 h3 h4 h5 h6 h7 h8 h9 h10
  match log, h8, h9 with
  | [a0, a1, a2, a3, a4, a5, a6], _, h9 =>
    simp at h9
    simp [record_of_bytes, record_bytes, List.range, List.range.loop]
    omega

theorem storage_load_of_persisted (e : EEPROM) (d : dispenser_data_t) (hp : persisted e d)
    (hv : d.Valid) (hm : d.init_marker = INIT_MARKER) :
    storage_load e = some { d with crc16 := stored_crc_field d } := by
  unfold persisted at hp
  unfold storage_load
  simp only [hp, crc16_save_buffer, record_of_save_buffer d hv]
  simp [hm]

theorem storage_load_after_save (e : EEPROM) (d : dispenser_data_t) (hv : d.Valid)
    (hm : d.init_marker = INIT_MARKER) :
    storage_load (storage_save e d).2 = some { d with crc16 := stored_crc_field d } :=
  storage_load_of_persisted _ d (persisted_after_save e d) hv hm

/-- C1 (as amended): for every record with magic `0xDEADBEEF`, `storage_save` returns
ok, the CRC-16 over the 21 stored bytes is 0, and `storage_load` succeeds with a record
equal to the saved one in every field but `crc16`, which holds the stored code. -/
theorem storage_save_load_roundtrip (e : EEPROM) (d : dispenser_data_t) (hv : d.Valid)
    (hm : d.init_marker = INIT_MARKER) :
    (storage_save e d).1 = true ∧
    crc16 (eeprom_read_block (storage_save e d).2 STATE_ADDR RECORD_SIZE) = 0 ∧
    ∃ r, storage_load (storage_save e d).2 = some r ∧
      r.init_marker = d.init_marker ∧ r.pills_left = d.pills_left ∧
      r.is_calibrated = d.is_calibrated ∧ r.total_dispensed = d.total_dispensed ∧
      r.total_cycles = d.total_cycles ∧ r.error_flags = d.error_flags ∧
      r.is_rotating = d.is_rotating ∧ r.dispense_log = d.dispense_log ∧
      r.crc16 = stored_crc_field d := by
  refine ⟨storage_save_ok e d, ?_, _, storage_load_after_save e d hv hm, ?_⟩
  · rw [read_after_save, crc16_save_buffer]
  · simp

/-- Witness of C1: the default record saved on an erased device. -/
theorem storage_save_load_roundtrip_witness :
    default_data.Valid ∧ default_data.init_marker = INIT_MARKER ∧
    (storage_save eeprom_erased default_data).1 = true ∧
    crc16 (eeprom_read_block (storage_save eeprom_erased default_data).2
      STATE_ADDR RECORD_SIZE) = 0 ∧
    ∃ r, storage_load (storage_save eeprom_erased default_data).2 = some r ∧
      r.init_marker = default_data.init_marker ∧ r.pills_left = default_data.pills_left ∧
      r.is_calibrated = default_data.is_calibrated ∧
      r.total_dispensed = default_data.total_dispensed ∧
      r.total_cycles = default_data.total_cycles ∧
      r.error_flags = default_data.error_flags ∧
      r.is_rotating = default_data.is_rotating ∧
      r.dispense_log = default_data.dispense_log ∧
      r.crc16 = stored_crc_field default_data :=
  ⟨by decide, by decide,
   storage_save_load_roundtrip eeprom_erased default_data (by decide) (by decide)⟩

/-- Counterexample to C1 as stated: the default record has `crc16 = 0` in memory; saved
on an erased device and loaded back its `crc16` field is 31021, so the loaded record is
not the saved one. -/
theorem storage_roundtrip_checksum_differs :
    default_data.init_marker = 0xDEADBEEF ∧ default_data.crc16 = 0 ∧
    storage_load (storage_save eeprom_erased default_data).2
      = some { default_data with crc16 := 31021 } ∧
    storage_load (storage_save eeprom_erased default_data).2 ≠ some default_data := by
  decide

/-! ### Storage: single-bit corruption -/

theorem xor_mod_two_pow (a b n : Nat) : (a ^^^ b) % 2 ^ n = (a % 2 ^ n) ^^^ (b % 2 ^ n) := by
  apply Nat.eq_of_testBit_eq
  intro i
  simp only [Nat.testBit_mod_two_pow, Nat.testBit_xor]
  by_cases h : i < n <;> simp [h]

theorem shiftRight_xor (a b n : Nat) : (a ^^^ b) >>> n = (a >>> n) ^^^ (b >>> n) := by
  apply Nat.eq_of_testBit_eq
  intro i
  simp only [Nat.testBit_shiftRight, Nat.testBit_xor]

theorem shiftLeft_xor (a b n : Nat) : (a ^^^ b) <<< n = (a <<< n) ^^^ (b <<< n) := by
  apply Nat.eq_of_testBit_eq
  intro i
  simp only [Nat.testBit_shiftLeft, Nat.testBit_xor]
  by_cases h : i ≥ n <;> simp [h]

theorem crc16_step_xor (c1 c2 b1 b2 : Nat) :
    crc16_step (c1 ^^^ c2) (b1 ^^^ b2) = crc16_step c1 b1 ^^^ crc16_step c2 b2 := by
  unfold crc16_step
  have e8 : (256 : Nat) = 2 ^ 8 := by norm_num
  have e16 : (65536 : Nat) = 2 ^ 16 := by norm_num
  simp only [e8, e16, xor_mod_two_pow, shiftRight_xor, shiftLeft_xor]
  ac_rfl

theorem crc16_from_xor (xs ys : List Nat) (h : xs.length = ys.length) (c1 c2 : Nat) :
    crc16_from (c1 ^^^ c2) (List.zipWith (fun a b => a ^^^ b) xs ys)
      = crc16_from c1 xs ^^^ crc16_from c2 ys := by
  induction xs generalizing ys c1 c2 with
  | nil =>
    cases ys with
    | nil => simp [crc16_from]
    | cons y t => simp at h
  | cons x s ih =>
    cases ys with
    | nil => simp at h
    | cons y t =>
      simp only [List.length_cons, Nat.add_right_cancel_iff] at h
      have := ih t h (crc16_step c1 x) (crc16_step c2 y)
      simpa [crc16_from, crc16_step_xor] using this

set_option maxRecDepth 100000 in
theorem flip_mask_crc_ne_zero : ∀ i < 168, crc16_from 0 (flip_mask i) ≠ 0 := by
  decide

theorem read_flipped (e : EEPROM) (i : Nat) :
    eeprom_read_block (eeprom_flip_bit e (STATE_ADDR + i / 8) (i % 8)) STATE_ADDR RECORD_SIZE
      = List.zipWith (fun a b => a ^^^ b) (eeprom_read_block e STATE_ADDR RECORD_SIZE)
          (flip_mask i) := by
  apply List.ext_getElem
  · simp [eeprom_read_block, flip_mask, RECORD_SIZE]
  · intro k h1 h2
    simp [eeprom_read_block, RECORD_SIZE] at h1
    simp only [eeprom_read_block, eeprom_flip_bit, flip_mask, List.getElem_map,
      List.getElem_range, List.getElem_zipWith, Nat.add_left_cancel_iff]
    by_cases hk : k = i / 8
    · simp only [hk, if_true]
      apply Nat.mod_eq_of_lt
      have hb : 1 <<< (i % 8) < 2 ^ 8 := by
        have : i % 8 < 8 := Nat.mod_lt _ (by norm_num)
        interval_cases (i % 8) <;> simp
      exact Nat.xor_lt_two_pow (Nat.mod_lt _ (by norm_num)) hb
    · simp [hk]

theorem crc16_flipped (e : EEPROM) (d : dispenser_data_t) (i : Nat) (hi : i < 168) :
    crc16 (eeprom_read_block (eeprom_flip_bit (storage_save e d).2 (STATE_ADDR + i / 8) (i % 8))
      STATE_ADDR RECORD_SIZE) ≠ 0 := by
  rw [read_flipped, read_after_save]
  have hlen : (save_buffer d).length = (flip_mask i).length := by
    simp [save_buffer_length, flip_mask]
  have hx := crc16_from_xor (save_buffer d) (flip_mask i) hlen 0xFFFF 0
  simp only [Nat.xor_zero] at hx
  have h0 : crc16_from 0xFFFF (save_buffer d) = 0 := crc16_save_buffer d
  unfold crc16
  rw [hx, h0, Nat.zero_xor]
  exact flip_mask_crc_ne_zero i hi

/-- C2: for every record with magic `0xDEADBEEF` (which loads back after a save) and
every bit position `i < 168` of the 21-byte block written by `storage_save`, the
CRC-16 over the block with bit `i` inverted is non-zero and `storage_load` fails. -/
theorem storage_load_rejects_bit_flip (e : EEPROM) (d : dispenser_data_t) (hv : d.Valid)
    (hm : d.init_marker = INIT_MARKER) (i : Nat) (hi : i < 168) :
    (storage_load (storage_save e d).2).isSome = true ∧
    crc16 (eeprom_read_block (eeprom_flip_bit (storage_save e d).2 (STATE_ADDR + i / 8) (i % 8))
      STATE_ADDR RECORD_SIZE) ≠ 0 ∧
    storage_load (eeprom_flip_bit (storage_save e d).2 (STATE_ADDR + i / 8) (i % 8)) = none := by
  refine ⟨by simp [storage_load_after_save e d hv hm], crc16_flipped e d i hi, ?_⟩
  have h := crc16_flipped e d i hi
  unfold storage_load
  simp only [h, if_false]
  split <;> rfl

/-- Witness of C2: bit 37 (bit 5 of the `pills_left` byte) of the saved default record. -/
theorem storage_load_rejects_bit_flip_witness :
    default_data.Valid ∧ default_data.init_marker = INIT_MARKER ∧ 37 < 168 ∧
    (storage_load (storage_save eeprom_erased default_data).2).isSome = true ∧
    crc16 (eeprom_read_block
      (eeprom_flip_bit (storage_save eeprom_erased default_data).2 (STATE_ADDR + 37 / 8) (37 % 8))
      STATE_ADDR RECORD_SIZE) ≠ 0 ∧
    storage_load
      (eeprom_flip_bit (storage_save eeprom_erased default_data).2 (STATE_ADDR + 37 / 8) (37 % 8))
      = none :=
  ⟨by decide, by decide, by decide,
   storage_load_rejects_bit_flip eeprom_erased default_data (by decide) (by decide) 37
     (by decide)⟩

/-! ### Records read from the EEPROM -/

theorem record_of_read_valid (e : EEPROM) :
    (record_of_bytes (eeprom_read_block e STATE_ADDR RECORD_SIZE)).Valid := by
  simp only [eeprom_read_block, RECORD_SIZE, record_of_bytes, dispenser_data_t.Valid]
  simp [List.range, List.range.loop]
  omega

theorem storage_load_some (e : EEPROM) (d : dispenser_data_t) (h : storage_load e = some d) :
    d.Valid ∧ d.init_marker = INIT_MARKER := by
  unfold storage_load at h
  simp only at h
  split at h
  · cases h
  · split at h
    · cases h
      refine ⟨record_of_read_valid e, ?_⟩
      rename_i hm _
      simpa using hm
    · cases h

/-! ### Flag arithmetic -/

theorem set_flag_eq (x f : Nat) (hx : x < 256) (hf : f < 256) : set_flag x f = x ||| f := by
  unfold set_flag
  exact Nat.mod_eq_of_lt (Nat.or_lt_two_pow (n := 8) hx hf)

theorem or_and_self (x f : Nat) : (x ||| f) &&& f = f := by
  apply Nat.eq_of_testBit_eq
  intro i
  simp only [Nat.testBit_and, Nat.testBit_or]
  cases Nat.testBit x i <;> cases Nat.testBit f i <;> rfl

theorem and_mod_two_pow (a b n : Nat) : (a &&& b) % 2 ^ n = (a % 2 ^ n) &&& (b % 2 ^ n) := by
  apply Nat.eq_of_testBit_eq
  intro i
  simp only [Nat.testBit_mod_two_pow, Nat.testBit_and]
  by_cases h : i < n <;> simp [h]

theorem clear_flag_lt (x f : Nat) : clear_flag x f < 256 := by
  unfold clear_flag
  exact Nat.mod_lt _ (by norm_num)

theorem set_flag_lt (x f : Nat) : set_flag x f < 256 := by
  unfold set_flag
  exact Nat.mod_lt _ (by norm_num)

theorem clear_flag_testBit (x f : Nat) (i : Nat) :
    (clear_flag x f).testBit i = (decide (i < 8) && (x.testBit i && !f.testBit i)) := by
  unfold clear_flag
  have e8 : (256 : Nat) = 2 ^ 8 := by norm_num
  have e32 : (0xFFFFFFFF : Nat) = 2 ^ 32 - 1 := by norm_num
  rw [e8, Nat.testBit_mod_two_pow, Nat.testBit_and, Nat.testBit_xor, e32,
    Nat.testBit_two_pow_sub_one]
  by_cases h8 : i < 8
  · have h32 : i < 32 := by omega
    simp [h8, h32]
  · simp [h8]

theorem set_flag_testBit (x f : Nat) (i : Nat) :
    (set_flag x f).testBit i = (decide (i < 8) && (x.testBit i || f.testBit i)) := by
  unfold set_flag
  have e8 : (256 : Nat) = 2 ^ 8 := by norm_num
  rw [e8, Nat.testBit_mod_two_pow, Nat.testBit_or]


/-! ### The link never touches the record, the EEPROM or the controller state -/

@[simp] theorem send_lora_safe_sys_data (t : lora_msg_type_t) (u : Nat) (m : Machine) :
    (send_lora_safe t u m).sys_data = m.sys_data := by
  unfold send_lora_safe; split <;> rfl

@[simp] theorem send_lora_safe_eeprom (t : lora_msg_type_t) (u : Nat) (m : Machine) :
    (send_lora_safe t u m).eeprom = m.eeprom := by
  unfold send_lora_safe; split <;> rfl

@[simp] theorem send_lora_safe_current_state (t : lora_msg_type_t) (u : Nat) (m : Machine) :
    (send_lora_safe t u m).current_state = m.current_state := by
  unfold send_lora_safe; split <;> rfl

@[simp] theorem send_lora_safe_last_dispense_time (t : lora_msg_type_t) (u : Nat)
    (m : Machine) : (send_lora_safe t u m).last_dispense_time = m.last_dispense_time := by
  unfold send_lora_safe; split <;> rfl

@[simp] theorem send_lora_safe_motor (t : lora_msg_type_t) (u : Nat) (m : Machine) :
    (send_lora_safe t u m).motor = m.motor := by
  unfold send_lora_safe; split <;> rfl

@[simp] theorem send_lora_safe_pill_drop_flag (t : lora_msg_type_t) (u : Nat) (m : Machine) :
    (send_lora_safe t u m).pill_drop_flag = m.pill_drop_flag := by
  unfold send_lora_safe; split <;> rfl

@[simp] theorem send_lora_safe_is_lora_online (t : lora_msg_type_t) (u : Nat) (m : Machine) :
    (send_lora_safe t u m).is_lora_online = m.is_lora_online := by
  unfold send_lora_safe; split <;> rfl

@[simp] theorem lora_init_and_join_eeprom (u : Nat) (m : Machine) :
    (lora_init_and_join u m).eeprom = m.eeprom := by
  unfold lora_init_and_join
  simp only
  split
  · rfl
  · split
    · simp
    · rfl

/-! ### Boot-time recovery -/

theorem restore_state_rotating (u : Nat) (m : Machine) (d : dispenser_data_t)
    (hl : storage_load m.eeprom = some d) (hr : d.is_rotating ≠ 0) :
    (restore_state u m).sys_data =
      { d with error_flags := set_flag d.error_flags ERROR_TURNING_INTERRUPTED,
               is_rotating := 0 } ∧
    (restore_state u m).eeprom = (storage_save m.eeprom
      { d with error_flags := set_flag d.error_flags ERROR_TURNING_INTERRUPTED,
               is_rotating := 0 }).2 ∧
    (restore_state u m).current_state = .STATE_CALIBRATING := by
  unfold restore_state
  simp [hl, hr]

/-- C3: when `storage_load` accepts the stored record `d` and `d.is_rotating` is
non-zero, `restore_state` leaves in `sys_data` the record `d` with bit `0x10` added to
`error_flags` and `is_rotating = 0` (no other field changed), that record is the one
persisted (and it loads back), and the controller is in Calibrating, hence neither in
WaitForStart nor in Dispensing; the same holds for the whole boot sequence of `main`. -/
theorem restore_state_interrupted_rotation (u : Nat) (m : Machine) (d : dispenser_data_t)
    (hl : storage_load m.eeprom = some d) (hr : d.is_rotating ≠ 0) :
    (restore_state u m).sys_data =
      { d with error_flags := d.error_flags ||| ERROR_TURNING_INTERRUPTED,
               is_rotating := 0 } ∧
    (restore_state u m).sys_data.error_flags &&& ERROR_TURNING_INTERRUPTED
      = ERROR_TURNING_INTERRUPTED ∧
    persisted (restore_state u m).eeprom (restore_state u m).sys_data ∧
    storage_load (restore_state u m).eeprom =
      some { (restore_state u m).sys_data with
               crc16 := stored_crc_field (restore_state u m).sys_data } ∧
    (restore_state u m).current_state = .STATE_CALIBRATING ∧
    (restore_state u m).current_state ≠ .STATE_WAIT_FOR_START ∧
    (restore_state u m).current_state ≠ .STATE_DISPENSING ∧
    ∀ modem, (boot false u m.eeprom modem).sys_data = (restore_state u m).sys_data ∧
      (boot false u m.eeprom modem).eeprom = (restore_state u m).eeprom ∧
      (boot false u m.eeprom modem).current_state = .STATE_CALIBRATING := by
  obtain ⟨hv, hm⟩ := storage_load_some m.eeprom d hl
  obtain ⟨h1, h2, h3⟩ := restore_state_rotating u m d hl hr
  have hef : d.error_flags < 256 := hv.2.2.2.2.2.1
  have hset : set_flag d.error_flags ERROR_TURNING_INTERRUPTED
      = d.error_flags ||| ERROR_TURNING_INTERRUPTED :=
    set_flag_eq _ _ hef (by decide)
  rw [hset] at h1 h2
  have hv' : ({ d with error_flags := d.error_flags ||| ERROR_TURNING_INTERRUPTED,
                       is_rotating := 0 } : dispenser_data_t).Valid := by
    obtain ⟨a1, a2, a3, a4, a5, a6, a7, a8, a9, a10⟩ := hv
    exact ⟨a1, a2, a3, a4, a5, Nat.or_lt_two_pow (n := 8) a6 (by decide), by norm_num,
      a8, a9, a10⟩
  have hp : persisted (restore_state u m).eeprom (restore_state u m).sys_data := by
    rw [h1, h2]; exact persisted_after_save _ _
  refine ⟨h1, ?_, hp, ?_, h3, ?_, ?_, ?_⟩
  · rw [h1]; exact or_and_self _ _
  · exact storage_load_of_persisted _ _ hp (by rw [h1]; exact hv') (by rw [h1]; exact hm)
  · rw [h3]; decide
  · rw [h3]; decide
  · intro modem
    have hb : ∀ x : Machine, x.eeprom = m.eeprom →
        (restore_state u x).sys_data = (restore_state u m).sys_data ∧
        (restore_state u x).eeprom = (restore_state u m).eeprom ∧
        (restore_state u x).current_state = .STATE_CALIBRATING := by
      intro x hx
      obtain ⟨g1, g2, g3⟩ := restore_state_rotating u x d (by rw [hx]; exact hl) hr
      rw [hset] at g1 g2
      rw [g1, g2, g3, h1, h2, hx]
      exact ⟨rfl, rfl, rfl⟩
    apply hb
    simp [boot, load_or_default, system_init, power_on, hl]

/-- Witness of C3: the default record stored with `is_rotating = 1`. -/
theorem restore_state_interrupted_rotation_witness :
    storage_load (power_on interrupted_eeprom []).eeprom
      = some { default_data with is_rotating := 1, crc16 := 43626 } ∧
    ({ default_data with is_rotating := 1, crc16 := 43626 } : dispenser_data_t).is_rotating ≠ 0 ∧
    (restore_state 0 (power_on interrupted_eeprom [])).sys_data.error_flags = 0x10 ∧
    (restore_state 0 (power_on interrupted_eeprom [])).sys_data.is_rotating = 0 ∧
    (restore_state 0 (power_on interrupted_eeprom [])).current_state = .STATE_CALIBRATING :=
  have h := restore_state_interrupted_rotation 0 (power_on interrupted_eeprom [])
    { default_data with is_rotating := 1, crc16 := 43626 } (by decide) (by decide)
  ⟨by decide, by decide, by rw [h.1]; decide, by rw [h.1], h.2.2.2.2.1⟩

/-! ### The Dispensing step -/

theorem dispensing_advance_flag (i : Inputs) (m : Machine) :
    (piezo_pill_detected i.drop_during_wait PIEZO_DETECT_TIMEOUT_MS
      (dispensing_advance i m).pill_drop_flag).1 = drop_detected i := rfl

/-- The record in RAM after the second part of a Dispensing step. -/
theorem dispensing_record_sys_data (i : Inputs) (m : Machine) :
    (dispensing_record i (dispensing_advance i m)).sys_data =
      { m.sys_data with
        is_rotating := 0,
        pills_left := (m.sys_data.pills_left + 256 - 1) % 256,
        error_flags := if drop_detected i then clear_flag m.sys_data.error_flags ERROR_NO_PILL
                       else set_flag m.sys_data.error_flags ERROR_NO_PILL,
        total_dispensed := if drop_detected i then (m.sys_data.total_dispensed + 1) % 65536
                           else m.sys_data.total_dispensed,
        dispense_log := log_update
          { m.sys_data with pills_left := (m.sys_data.pills_left + 256 - 1) % 256 }
          (drop_detected i),
        total_cycles := (m.sys_data.total_cycles + 1) % 65536 } := by
  have hd := dispensing_advance_flag i m
  unfold dispensing_record
  simp only [hd]
  cases drop_detected i <;> simp [dispensing_advance, log_update]

theorem dispensing_record_persisted (i : Inputs) (m : Machine) :
    persisted (dispensing_record i m).eeprom (dispensing_record i m).sys_data := by
  unfold dispensing_record
  exact persisted_after_save _ _

theorem dispensing_record_current_state (i : Inputs) (m : Machine) :
    (dispensing_record i (dispensing_advance i m)).current_state = m.current_state := by
  unfold dispensing_record
  simp only
  split <;> simp [dispensing_advance]

theorem and_flag_ne_zero (x k : Nat) : x &&& 2 ^ k ≠ 0 ↔ x.testBit k = true := by
  rw [Nat.and_two_pow]
  cases x.testBit k <;> simp

theorem clear_flag_and_self (x k : Nat) : clear_flag x (2 ^ k) &&& 2 ^ k = 0 := by
  by_contra hne
  have h := (and_flag_ne_zero _ _).mp hne
  rw [clear_flag_testBit, Nat.testBit_two_pow_self] at h
  simp at h

theorem set_flag_and_self (x k : Nat) (hk : k < 8) : set_flag x (2 ^ k) &&& 2 ^ k ≠ 0 := by
  rw [and_flag_ne_zero, set_flag_testBit, Nat.testBit_two_pow_self]
  simp [hk]

/-- C5: a Dispensing step entered with `pills_left = 1` ends, whatever the drop sensor
reports, with `pills_left = 7`, `error_flags = 0`, an all-zero `dispense_log`,
`is_rotating = 0`, that record persisted and the controller in WaitForCalibration; a
Dispensing step entered with `2 ≤ pills_left ≤ 7` does no reset (the record is the one
saved after the drop wait: `pills_left` one less, the no-pill flag updated, one log
entry written) and goes to SleepInterval when the drop was detected and to
HandleError when it was not. -/
theorem dispensing_full_cycle_reset (i : Inputs) (m : Machine)
    (hs : m.current_state = .STATE_DISPENSING) :
    (m.sys_data.pills_left = 1 →
      (step i m).sys_data.pills_left = 7 ∧
      (step i m).sys_data.error_flags = 0 ∧
      (step i m).sys_data.dispense_log = [0, 0, 0, 0, 0, 0, 0] ∧
      (step i m).sys_data.is_rotating = 0 ∧
      persisted (step i m).eeprom (step i m).sys_data ∧
      (step i m).current_state = .STATE_WAIT_FOR_CALIBRATION) ∧
    (2 ≤ m.sys_data.pills_left ∧ m.sys_data.pills_left ≤ 7 →
      (step i m).sys_data.pills_left = m.sys_data.pills_left - 1 ∧
      (step i m).sys_data.error_flags =
        (if drop_detected i then clear_flag m.sys_data.error_flags ERROR_NO_PILL
         else set_flag m.sys_data.error_flags ERROR_NO_PILL) ∧
      (step i m).sys_data.dispense_log =
        m.sys_data.dispense_log.set (7 - m.sys_data.pills_left)
          (if drop_detected i then 1 else 0) ∧
      (step i m).sys_data.is_rotating = 0 ∧
      persisted (step i m).eeprom (step i m).sys_data ∧
      (step i m).current_state =
        (if drop_detected i then .STATE_SLEEP_INTERVAL else .STATE_HANDLE_ERROR)) := by
  have hstep : step i m = dispensing_complete i (dispensing_record i (dispensing_advance i m)) := by
    unfold step; rw [hs]; rfl
  have hrec := dispensing_record_sys_data i m
  have hper := dispensing_record_persisted i (dispensing_advance i m)
  rw [hstep]
  generalize dispensing_record i (dispensing_advance i m) = r at hrec hper
  constructor
  · intro h1
    have hp : r.sys_data.pills_left = 0 := by rw [hrec, h1]
    unfold dispensing_complete
    simp only [hp, le_refl, if_true]
    refine ⟨rfl, rfl, rfl, ?_, persisted_after_save _ _, trivial⟩
    simp [hrec]
  · rintro ⟨h2, h7⟩
    have hp : r.sys_data.pills_left = m.sys_data.pills_left - 1 := by
      rw [hrec]; simp only; omega
    have hnz : ¬ r.sys_data.pills_left ≤ 0 := by omega
    have hef : r.sys_data.error_flags =
        (if drop_detected i then clear_flag m.sys_data.error_flags ERROR_NO_PILL
         else set_flag m.sys_data.error_flags ERROR_NO_PILL) := by rw [hrec]
    have hlog : r.sys_data.dispense_log =
        m.sys_data.dispense_log.set (7 - m.sys_data.pills_left)
          (if drop_detected i then 1 else 0) := by
      rw [hrec]
      simp only [log_update, PILLS_TOTAL]
      have e1 : (m.sys_data.pills_left + 256 - 1) % 256 = m.sys_data.pills_left - 1 := by omega
      rw [e1]
      have e2 : ((7 : Nat) : Int) - ((m.sys_data.pills_left - 1 : Nat) : Int) - 1
          = ((7 - m.sys_data.pills_left : Nat) : Int) := by omega
      rw [e2]
      have e3 : (0 : Int) ≤ ((7 - m.sys_data.pills_left : Nat) : Int) ∧
          ((7 - m.sys_data.pills_left : Nat) : Int) < 7 := by omega
      simp only [e3, and_self, if_true, Int.toNat_ofNat]
    have hrot : r.sys_data.is_rotating = 0 := by rw [hrec]
    have e4 : (4 : Nat) = 2 ^ 2 := by norm_num
    unfold dispensing_complete
    simp only [hnz, if_false]
    cases hd : drop_detected i
    · have hfl : r.sys_data.error_flags &&& ERROR_NO_PILL ≠ 0 := by
        rw [hef, hd]; simp only [ERROR_NO_PILL, e4]
        exact set_flag_and_self _ 2 (by norm_num)
      simp only [hfl, ne_eq, not_false_eq_true, if_true]
      rw [hd] at hef hlog
      exact ⟨hp, hef, hlog, hrot, hper, by simp⟩
    · have hfl : r.sys_data.error_flags &&& ERROR_NO_PILL = 0 := by
        rw [hef, hd]; simp only [ERROR_NO_PILL, e4]
        exact clear_flag_and_self _ 2
      simp only [hfl, ne_eq, not_true_eq_false, if_false]
      rw [hd] at hef hlog
      exact ⟨hp, hef, hlog, hrot, hper, by simp⟩


set_option maxRecDepth 1000000 in
/-- Witness of C5: the seventh dose of the first cycle (reset), and the first dose of a
cycle when no drop is detected (no reset, HandleError). -/
theorem dispensing_full_cycle_reset_witness :
    last_dose_machine.current_state = .STATE_DISPENSING ∧
    last_dose_machine.sys_data.pills_left = 1 ∧
    (step pill_drops last_dose_machine).sys_data.pills_left = 7 ∧
    (step pill_drops last_dose_machine).current_state = .STATE_WAIT_FOR_CALIBRATION ∧
    ready_machine.current_state = .STATE_DISPENSING ∧
    (2 ≤ ready_machine.sys_data.pills_left ∧ ready_machine.sys_data.pills_left ≤ 7) ∧
    drop_detected quiet = false ∧
    (step quiet ready_machine).sys_data.pills_left = ready_machine.sys_data.pills_left - 1 ∧
    (step quiet ready_machine).current_state = .STATE_HANDLE_ERROR :=
  have h1 := (dispensing_full_cycle_reset pill_drops last_dose_machine (by decide)).1
    (by decide)
  have h2 := (dispensing_full_cycle_reset quiet ready_machine (by decide)).2 (by decide)
  ⟨by decide, by decide, h1.1, h1.2.2.2.2.2, by decide, by decide, by decide, h2.1,
   by rw [h2.2.2.2.2.2]; decide⟩


/-! ### Power loss inside a Dispensing step -/

set_option maxRecDepth 1000000 in
/-- C4 (the code at the failing input): on a fresh device six doses are dispensed; in
the seventh Dispensing step power is lost after the save that follows the drop wait and
before the reset of the completion check, so the record on the EEPROM has
`pills_left = 0` and `is_rotating = 0`; the next boot goes to WaitForCalibration with
that record, and after SW0, homing and SW2 the next Dispensing step leaves
`pills_left = 255`. -/
theorem pills_left_wraps_after_power_loss :
    last_dose_machine.current_state = .STATE_DISPENSING ∧
    last_dose_machine.sys_data.pills_left = 1 ∧
    (storage_load (dispensing_record pill_drops
        (dispensing_advance pill_drops last_dose_machine)).eeprom).map
      (fun d => (d.pills_left, d.is_rotating)) = some (0, 0) ∧
    (boot false 0 (dispensing_record pill_drops
        (dispensing_advance pill_drops last_dose_machine)).eeprom []).current_state
      = .STATE_WAIT_FOR_CALIBRATION ∧
    (run [press_sw0, homing_ok, press_sw2]
      (boot false 0 (dispensing_record pill_drops
        (dispensing_advance pill_drops last_dose_machine)).eeprom [])).current_state
      = .STATE_DISPENSING ∧
    (run [press_sw0, homing_ok, press_sw2, pill_drops]
      (boot false 0 (dispensing_record pill_drops
        (dispensing_advance pill_drops last_dose_machine)).eeprom [])).sys_data.pills_left
      = 255 := by
  decide

set_option maxRecDepth 1000000 in
/-- C6 (the code at the failing input): in every Dispensing step the record on the
EEPROM when `piezo_pill_detected` is called is the one saved before the advance, with
`is_rotating = 1`, while `sys_data.is_rotating` is already 0 in RAM; on a fresh device
about to dispense its first dose, power lost during the drop wait leaves that record,
and the next boot takes it for an interrupted rotation: Calibrating, with the
turning-interrupted flag set. -/
theorem rotating_marker_set_during_drop_wait :
    (∀ (i : Inputs) (m : Machine),
      persisted (dispensing_advance i m).eeprom { m.sys_data with is_rotating := 1 } ∧
      (dispensing_advance i m).sys_data.is_rotating = 0) ∧
    ready_machine.current_state = .STATE_DISPENSING ∧
    (storage_load (dispensing_advance quiet ready_machine).eeprom).map
      (fun d => (d.pills_left, d.is_rotating)) = some (7, 1) ∧
    (boot false 0 (dispensing_advance quiet ready_machine).eeprom []).current_state
      = .STATE_CALIBRATING ∧
    (boot false 0 (dispensing_advance quiet ready_machine).eeprom []).sys_data.error_flags
      = ERROR_TURNING_INTERRUPTED := by
  refine ⟨fun i m => ⟨persisted_after_save _ _, rfl⟩, ?_⟩
  decide


/-! ### The Calibrating step -/

theorem step_calibrating_sys_data (i : Inputs) (m : Machine) :
    (step_calibrating i m).sys_data =
      { m.sys_data with is_rotating := 0, is_calibrated := 1,
                        error_flags := clear_flag m.sys_data.error_flags ERROR_CALIB_FAIL } := by
  simp [step_calibrating]

theorem step_calibrating_persisted (i : Inputs) (m : Machine) :
    persisted (step_calibrating i m).eeprom (step_calibrating i m).sys_data := by
  simp only [step_calibrating, send_lora_safe_eeprom, send_lora_safe_sys_data]
  exact persisted_after_save _ _

/-- The search loop never sees the reference: it breaks with `sensor_not_found`. -/
theorem calibrate_search_never_aligned (opto : Nat → Bool) (h : ∀ k, opto k = false)
    (fuel sc : Nat) (m : Motor) :
    (calibrate_search opto fuel sc m).sensor_not_found = true := by
  induction fuel generalizing sc m with
  | zero => rfl
  | succ n ih =>
    unfold calibrate_search
    simp only [h, Bool.false_eq_true, if_false]
    split
    · rfl
    · exact ih _ _

/-- The search loop sees the reference at its first reading: no step, found. -/
theorem calibrate_search_aligned_at_once (opto : Nat → Bool) (fuel sc : Nat) (m : Motor)
    (h : opto sc = true) :
    (calibrate_search opto (fuel + 1) sc m).sensor_not_found = false := by
  unfold calibrate_search
  simp [h]

theorem motor_calibrate_never_aligned (opto : Nat → Bool) (h : ∀ k, opto k = false)
    (m : Motor) : (motor_calibrate opto m).sensor_not_found = true := by
  unfold motor_calibrate
  exact calibrate_search_never_aligned opto h _ _ _

theorem motor_calibrate_aligned_at_once (opto : Nat → Bool) (m : Motor) (h : opto 0 = true) :
    (motor_calibrate opto m).sensor_not_found = false := by
  unfold motor_calibrate
  exact calibrate_search_aligned_at_once opto (STEPS_PER_REV * 3) 0 _ h

/-- What `case STATE_CALIBRATING` does on every input: the step ends with
`is_calibrated = 1`, bit `0x08` (calibration failure) of `error_flags` clear, the record
persisted and the controller in WaitForStart, and neither the record nor the next state
depends on the readings of the optical sensor: nothing in the step tests how
`motor_calibrate` ended. -/
theorem calibrating_ignores_homing_outcome (i : Inputs) (m : Machine)
    (hs : m.current_state = .STATE_CALIBRATING) :
    (step i m).sys_data.is_calibrated = 1 ∧
    (step i m).sys_data.error_flags &&& ERROR_CALIB_FAIL = 0 ∧
    (step i m).sys_data.is_rotating = 0 ∧
    persisted (step i m).eeprom (step i m).sys_data ∧
    (step i m).current_state = .STATE_WAIT_FOR_START ∧
    (step i m).motor = (motor_calibrate i.opto m.motor).motor ∧
    ∀ opto, (step { i with opto := opto } m).sys_data = (step i m).sys_data ∧
      (step { i with opto := opto } m).current_state = (step i m).current_state := by
  have hstep : ∀ j, step j m = step_calibrating j m := by
    intro j; unfold step; rw [hs]
  have e8 : ERROR_CALIB_FAIL = 2 ^ 3 := by decide
  refine ⟨?_, ?_, ?_, ?_, ?_, ?_, ?_⟩
  · rw [hstep, step_calibrating_sys_data]
  · rw [hstep, step_calibrating_sys_data]
    simp only [e8]
    exact clear_flag_and_self _ 3
  · rw [hstep, step_calibrating_sys_data]
  · rw [hstep]; exact step_calibrating_persisted i m
  · rw [hstep]; simp [step_calibrating]
  · rw [hstep]; simp [step_calibrating]
  · intro opto
    rw [hstep, hstep, step_calibrating_sys_data, step_calibrating_sys_data]
    simp [step_calibrating]

set_option maxRecDepth 1000000 in
/-- C7 (the code at the failing input): on a fresh device, after SW0, the optical
reference is never asserted, `motor_calibrate` gives up through its `Sensor not found`
branch, and the Calibrating step still ends with `is_calibrated = 1`, bit `0x08`
(calibration failure) of `error_flags` clear and the controller in WaitForStart; that
record is the one persisted, and it is the record a successful homing leaves. -/
theorem calibrated_set_when_sensor_not_found :
    (run [press_sw0] fresh_machine).current_state = .STATE_CALIBRATING ∧
    (motor_calibrate quiet.opto (run [press_sw0] fresh_machine).motor).sensor_not_found = true ∧
    (run [press_sw0, quiet] fresh_machine).sys_data.is_calibrated = 1 ∧
    (run [press_sw0, quiet] fresh_machine).sys_data.error_flags &&& ERROR_CALIB_FAIL = 0 ∧
    (run [press_sw0, quiet] fresh_machine).current_state = .STATE_WAIT_FOR_START ∧
    persisted (run [press_sw0, quiet] fresh_machine).eeprom
      (run [press_sw0, quiet] fresh_machine).sys_data ∧
    (run [press_sw0, quiet] fresh_machine).sys_data
      = (run [press_sw0, homing_ok] fresh_machine).sys_data := by
  refine ⟨by decide, ?_, by decide, by decide, by decide, by decide, by decide⟩
  exact motor_calibrate_never_aligned _ (fun _ => rfl) _

set_option maxRecDepth 1000000 in
/-- A Calibrating step in which the reference is seen at once. -/
theorem calibrating_ignores_homing_outcome_witness :
    (run [press_sw0] fresh_machine).current_state = .STATE_CALIBRATING ∧
    (motor_calibrate homing_ok.opto (run [press_sw0] fresh_machine).motor).sensor_not_found
      = false ∧
    (step homing_ok (run [press_sw0] fresh_machine)).sys_data.is_calibrated = 1 ∧
    (step homing_ok (run [press_sw0] fresh_machine)).current_state = .STATE_WAIT_FOR_START :=
  have h := calibrating_ignores_homing_outcome homing_ok (run [press_sw0] fresh_machine)
    (by decide)
  ⟨by decide, motor_calibrate_aligned_at_once _ _ rfl, h.1, h.2.2.2.2.1⟩


/-! ### Link non-interference -/

theorem step_calibrating_link (i : Inputs) (m : Machine) (o : Bool) (l : Lora) :
    (step_calibrating i (with_link o l m)).sys_data = (step_calibrating i m).sys_data ∧
    (step_calibrating i (with_link o l m)).eeprom = (step_calibrating i m).eeprom ∧
    (step_calibrating i (with_link o l m)).current_state
      = (step_calibrating i m).current_state := by
  simp [step_calibrating, with_link]

theorem dispensing_record_link (i : Inputs) (m : Machine) (o : Bool) (l : Lora) :
    (dispensing_record i (with_link o l m)).sys_data = (dispensing_record i m).sys_data ∧
    (dispensing_record i (with_link o l m)).eeprom = (dispensing_record i m).eeprom ∧
    (dispensing_record i (with_link o l m)).current_state
      = (dispensing_record i m).current_state := by
  unfold dispensing_record
  simp only [with_link]
  split <;> simp

theorem dispensing_complete_link (i : Inputs) (a b : Machine)
    (h1 : a.sys_data = b.sys_data) (h2 : a.eeprom = b.eeprom) :
    (dispensing_complete i a).sys_data = (dispensing_complete i b).sys_data ∧
    (dispensing_complete i a).eeprom = (dispensing_complete i b).eeprom ∧
    (dispensing_complete i a).current_state = (dispensing_complete i b).current_state := by
  unfold dispensing_complete
  rw [h1]
  split
  · simp [h1, h2]
  · split
    · simp [h1, h2]
    · simp [h1, h2]

theorem step_dispensing_link (i : Inputs) (m : Machine) (o : Bool) (l : Lora) :
    (step_dispensing i (with_link o l m)).sys_data = (step_dispensing i m).sys_data ∧
    (step_dispensing i (with_link o l m)).eeprom = (step_dispensing i m).eeprom ∧
    (step_dispensing i (with_link o l m)).current_state
      = (step_dispensing i m).current_state := by
  unfold step_dispensing
  have ha : dispensing_advance i (with_link o l m) = with_link o l (dispensing_advance i m) := rfl
  rw [ha]
  obtain ⟨h1, h2, _⟩ := dispensing_record_link i (dispensing_advance i m) o l
  exact dispensing_complete_link i _ _ h1 h2

theorem step_link (i : Inputs) (m : Machine) (o : Bool) (l : Lora) :
    (step i (with_link o l m)).sys_data = (step i m).sys_data ∧
    (step i (with_link o l m)).eeprom = (step i m).eeprom ∧
    (step i (with_link o l m)).current_state = (step i m).current_state := by
  have hc : (with_link o l m).current_state = m.current_state := rfl
  unfold step
  rw [hc]
  cases m.current_state with
  | STATE_WAIT_FOR_CALIBRATION => simp only; split <;> exact ⟨rfl, rfl, rfl⟩
  | STATE_CALIBRATING => exact step_calibrating_link i m o l
  | STATE_WAIT_FOR_START => simp only; split <;> exact ⟨rfl, rfl, rfl⟩
  | STATE_DISPENSING => exact step_dispensing_link i m o l
  | STATE_HANDLE_ERROR => exact ⟨rfl, rfl, rfl⟩
  | STATE_SLEEP_INTERVAL =>
    simp only
    have : (with_link o l m).last_dispense_time = m.last_dispense_time := rfl
    rw [this]
    split <;> exact ⟨rfl, rfl, rfl⟩
  | STATE_DONE => exact ⟨rfl, rfl, rfl⟩

theorem restore_state_core (u : Nat) (a b : Machine) (he : a.eeprom = b.eeprom)
    (hc : a.current_state = b.current_state) :
    (restore_state u a).sys_data = (restore_state u b).sys_data ∧
    (restore_state u a).eeprom = (restore_state u b).eeprom ∧
    (restore_state u a).current_state = (restore_state u b).current_state := by
  unfold restore_state
  rw [he]
  cases storage_load b.eeprom with
  | none => exact ⟨rfl, rfl, hc⟩
  | some d =>
    simp only
    split
    · simp [he]
    · split <;> exact ⟨rfl, rfl, rfl⟩

theorem lora_init_and_join_current_state (u : Nat) (m : Machine) :
    (lora_init_and_join u m).current_state = m.current_state := by
  unfold lora_init_and_join
  simp only
  split
  · rfl
  · split
    · simp
    · rfl

theorem load_or_default_core (a b : Machine) (he : a.eeprom = b.eeprom)
    (hc : a.current_state = b.current_state) :
    (load_or_default a).eeprom = (load_or_default b).eeprom ∧
    (load_or_default a).current_state = (load_or_default b).current_state := by
  unfold load_or_default
  rw [he]
  cases storage_load b.eeprom with
  | none => exact ⟨rfl, hc⟩
  | some d => exact ⟨rfl, hc⟩

theorem system_init_core (sw0_held : Bool) (a b : Machine) (he : a.eeprom = b.eeprom)
    (hc : a.current_state = b.current_state) :
    (system_init sw0_held a).eeprom = (system_init sw0_held b).eeprom ∧
    (system_init sw0_held a).current_state = (system_init sw0_held b).current_state := by
  unfold system_init
  cases sw0_held
  · exact ⟨he, hc⟩
  · simp only [if_true]
    rw [he]
    exact ⟨rfl, hc⟩

theorem boot_link (sw0_held : Bool) (u : Nat) (e : EEPROM) (modem1 modem2 : List (List String)) :
    (boot sw0_held u e modem1).sys_data = (boot sw0_held u e modem2).sys_data ∧
    (boot sw0_held u e modem1).eeprom = (boot sw0_held u e modem2).eeprom ∧
    (boot sw0_held u e modem1).current_state = (boot sw0_held u e modem2).current_state := by
  unfold boot
  obtain ⟨h1, h2⟩ := system_init_core sw0_held (power_on e modem1) (power_on e modem2) rfl rfl
  obtain ⟨h3, h4⟩ := load_or_default_core _ _ h1 h2
  apply restore_state_core
  · rw [lora_init_and_join_eeprom, lora_init_and_join_eeprom]; exact h3
  · rw [lora_init_and_join_current_state, lora_init_and_join_current_state]; exact h4

/-- C8: the record in RAM, the EEPROM content and the next controller state after a
loop iteration (Dispensing, Calibrating and every other state), after `restore_state`
and after the whole boot sequence are the same for any two radio links: whatever
`is_lora_online`, the session state and the modem's answers are. -/
theorem link_noninterference (i : Inputs) (m : Machine) (o1 o2 : Bool) (l1 l2 : Lora)
    (u : Nat) (sw0_held : Bool) (e : EEPROM) (modem1 modem2 : List (List String)) :
    ((step i (with_link o1 l1 m)).sys_data = (step i (with_link o2 l2 m)).sys_data ∧
     (step i (with_link o1 l1 m)).eeprom = (step i (with_link o2 l2 m)).eeprom ∧
     (step i (with_link o1 l1 m)).current_state
       = (step i (with_link o2 l2 m)).current_state) ∧
    ((restore_state u (with_link o1 l1 m)).sys_data
       = (restore_state u (with_link o2 l2 m)).sys_data ∧
     (restore_state u (with_link o1 l1 m)).eeprom
       = (restore_state u (with_link o2 l2 m)).eeprom ∧
     (restore_state u (with_link o1 l1 m)).current_state
       = (restore_state u (with_link o2 l2 m)).current_state) ∧
    ((boot sw0_held u e modem1).sys_data = (boot sw0_held u e modem2).sys_data ∧
     (boot sw0_held u e modem1).eeprom = (boot sw0_held u e modem2).eeprom ∧
     (boot sw0_held u e modem1).current_state = (boot sw0_held u e modem2).current_state) := by
  refine ⟨?_, ?_, ?_⟩
  · obtain ⟨a1, a2, a3⟩ := step_link i m o1 l1
    obtain ⟨b1, b2, b3⟩ := step_link i m o2 l2
    exact ⟨a1.trans b1.symm, a2.trans b2.symm, a3.trans b3.symm⟩
  · exact restore_state_core u _ _ rfl rfl
  · exact boot_link sw0_held u e modem1 modem2


/-! ### The radio link -/

theorem lora_send_status_not_connected (type : lora_msg_type_t) (d : dispenser_data_t)
    (u : Nat) (l : Lora) (h : l.lora_current_state ≠ .LORA_STATE_CONNECTED) :
    lora_send_status type d u l = (false, l) := by
  unfold lora_send_status
  simp [h]

theorem lora_send_status_sent (type : lora_msg_type_t) (d : dispenser_data_t)
    (u : Nat) (l : Lora) (h : (lora_send_status type d u l).2.sent ≠ l.sent) :
    l.lora_current_state = .LORA_STATE_CONNECTED := by
  by_contra hc
  rw [lora_send_status_not_connected type d u l hc] at h
  exact h rfl

/-- C9: when the link is not connected, the four configuration commands succeed and
both `AT+JOIN` attempts fail, `lora_join_network` returns failure with the link state
Disconnected (the last two commands sent being the two `AT+JOIN`), and every later
`lora_send_status` returns failure leaving the session untouched: nothing is sent to
the modem.  More generally `lora_send_status` fails without sending whenever the state
is not Connected, and if it sends anything the state was Connected. -/
theorem join_failure_blocks_send (l : Lora)
    (hs : l.lora_current_state ≠ .LORA_STATE_CONNECTED)
    (hmode : at_response "LWOTAA" (l.modem.getD 0 []) = true)
    (hkey : at_response "KEY" (l.modem.getD 1 []) = true)
    (hclass : at_response "A" (l.modem.getD 2 []) = true)
    (hport : at_response "8" (l.modem.getD 3 []) = true)
    (hjoin1 : at_response "Done" (l.modem.getD 4 []) = false)
    (hjoin2 : at_response "Done" (l.modem.getD 5 []) = false) :
    (lora_join_network l).1 = false ∧
    (lora_join_network l).2.lora_current_state = .LORA_STATE_DISCONNECTED ∧
    ((lora_join_network l).2.sent.drop (l.sent.length + 4) = ["AT+JOIN", "AT+JOIN"]) ∧
    (∀ type d u, lora_send_status type d u (lora_join_network l).2
        = (false, (lora_join_network l).2)) ∧
    (∀ (k : Lora) type d u, k.lora_current_state ≠ .LORA_STATE_CONNECTED →
        lora_send_status type d u k = (false, k)) ∧
    (∀ (k : Lora) type d u, (lora_send_status type d u k).2.sent ≠ k.sent →
        k.lora_current_state = .LORA_STATE_CONNECTED) := by
  have hstate : (lora_join_network l).1 = false ∧
      (lora_join_network l).2.lora_current_state = .LORA_STATE_DISCONNECTED ∧
      ((lora_join_network l).2.sent.drop (l.sent.length + 4) = ["AT+JOIN", "AT+JOIN"]) := by
    obtain ⟨st, modem, sent⟩ := l
    simp only at hs hmode hkey hclass hport hjoin1 hjoin2
    simp only [List.getD_eq_getElem?_getD] at hmode hkey hclass hport hjoin1 hjoin2
    have h0 : ∀ xs : List (List String), xs.head? = xs[0]? := by
      intro xs; cases xs <;> simp
    simp [lora_join_network, send_at_command, lora_join_loop, hs, h0, hmode, hkey, hclass,
      hport, hjoin1, hjoin2]
  obtain ⟨a1, a2, a3⟩ := hstate
  refine ⟨a1, a2, a3, ?_, ?_, ?_⟩
  · intro type d u
    exact lora_send_status_not_connected type d u _ (by rw [a2]; decide)
  · intro k type d u hk
    exact lora_send_status_not_connected type d u k hk
  · intro k type d u hk
    exact lora_send_status_sent type d u k hk


set_option maxRecDepth 100000 in
/-- Witness of C9: a modem that answers the configuration and refuses both joins. -/
theorem join_failure_blocks_send_witness :
    join_refused_link.lora_current_state ≠ .LORA_STATE_CONNECTED ∧
    at_response "LWOTAA" (join_refused_link.modem.getD 0 []) = true ∧
    at_response "KEY" (join_refused_link.modem.getD 1 []) = true ∧
    at_response "A" (join_refused_link.modem.getD 2 []) = true ∧
    at_response "8" (join_refused_link.modem.getD 3 []) = true ∧
    at_response "Done" (join_refused_link.modem.getD 4 []) = false ∧
    at_response "Done" (join_refused_link.modem.getD 5 []) = false ∧
    (lora_join_network join_refused_link).1 = false ∧
    (lora_join_network join_refused_link).2.lora_current_state = .LORA_STATE_DISCONNECTED ∧
    (lora_send_status .MSG_PILL_OK default_data 12 (lora_join_network join_refused_link).2).1
      = false :=
  have h := join_failure_blocks_send join_refused_link (by decide) (by decide) (by decide)
    (by decide) (by decide) (by decide) (by decide)
  ⟨by decide, by decide, by decide, by decide, by decide, by decide, by decide, h.1, h.2.1,
   by rw [h.2.2.2.1]⟩


/-! ### Error flags -/

theorem testBit_lt_eight (x b : Nat) (hx : x < 256) (h : x.testBit b = true) : b < 8 := by
  by_contra hb
  have h8 : (256 : Nat) = 2 ^ 8 := by norm_num
  have : x < 2 ^ b := by
    calc x < 2 ^ 8 := by omega
      _ ≤ 2 ^ b := Nat.pow_le_pow_right (by norm_num) (by omega)
  rw [Nat.testBit_lt_two_pow this] at h
  exact Bool.false_ne_true h

theorem set_flag_keeps (x f b : Nat) (hx : x < 256) (h : x.testBit b = true) :
    (set_flag x f).testBit b = true := by
  rw [set_flag_testBit]
  simp [h, testBit_lt_eight x b hx h]

theorem clear_flag_keeps (x k b : Nat) (hx : x < 256) (hb : b ≠ k) (h : x.testBit b = true) :
    (clear_flag x (2 ^ k)).testBit b = true := by
  rw [clear_flag_testBit, Nat.testBit_two_pow]
  simp [h, testBit_lt_eight x b hx h, Ne.symm hb]

/-- A Dispensing step entered with at least two pills left does not reset the record. -/
theorem dispensing_complete_sys_data (i : Inputs) (m : Machine)
    (h : 0 < m.sys_data.pills_left) :
    (dispensing_complete i m).sys_data = m.sys_data := by
  unfold dispensing_complete
  have : ¬ m.sys_data.pills_left ≤ 0 := by omega
  simp only [this, if_false]
  split <;> rfl

/-- C10 (as amended): for a record whose fields hold values of their C types, a
Dispensing step entered with `pills_left ≥ 2` keeps every bit of `error_flags` that was
set, except bit 2 (`0x04`, no pill) when the drop is detected; a Calibrating step keeps
every bit except bit 3 (`0x08`, calibration failure); `restore_state` keeps every bit
of an accepted stored record. -/
theorem error_flags_sticky (i : Inputs) (m : Machine) (hv : m.sys_data.Valid) :
    (m.current_state = .STATE_DISPENSING → 2 ≤ m.sys_data.pills_left →
      ∀ b, (b ≠ 2 ∨ drop_detected i = false) → m.sys_data.error_flags.testBit b = true →
        (step i m).sys_data.error_flags.testBit b = true) ∧
    (m.current_state = .STATE_CALIBRATING →
      ∀ b, b ≠ 3 → m.sys_data.error_flags.testBit b = true →
        (step i m).sys_data.error_flags.testBit b = true) ∧
    (∀ u d, storage_load m.eeprom = some d →
      ∀ b, d.error_flags.testBit b = true →
        (restore_state u m).sys_data.error_flags.testBit b = true) := by
  have hef : m.sys_data.error_flags < 256 := hv.2.2.2.2.2.1
  have hpl : m.sys_data.pills_left < 256 := hv.2.1
  refine ⟨?_, ?_, ?_⟩
  · intro hs h2 b hb ht
    have hstep : step i m = dispensing_complete i (dispensing_record i (dispensing_advance i m)) := by
      unfold step; rw [hs]; rfl
    have hrec := dispensing_record_sys_data i m
    have hpos : 0 < (dispensing_record i (dispensing_advance i m)).sys_data.pills_left := by
      rw [hrec]; simp only; omega
    rw [hstep, dispensing_complete_sys_data i _ hpos, hrec]
    simp only
    have e4 : ERROR_NO_PILL = 2 ^ 2 := by decide
    cases hd : drop_detected i
    · simp only [Bool.false_eq_true, if_false]
      exact set_flag_keeps _ _ b hef ht
    · simp only [if_true]
      rw [e4]
      rcases hb with hb | hb
      · exact clear_flag_keeps _ 2 b hef hb ht
      · rw [hd] at hb; cases hb
  · intro hs b hb ht
    have hstep : step i m = step_calibrating i m := by
      unfold step; rw [hs]
    have e8 : ERROR_CALIB_FAIL = 2 ^ 3 := by decide
    rw [hstep, step_calibrating_sys_data, e8]
    exact clear_flag_keeps _ 3 b hef hb ht
  · intro u d hl b ht
    obtain ⟨hdv, _⟩ := storage_load_some m.eeprom d hl
    have hdf : d.error_flags < 256 := hdv.2.2.2.2.2.1
    by_cases hr : d.is_rotating ≠ 0
    · rw [(restore_state_rotating u m d hl hr).1]
      exact set_flag_keeps _ _ b hdf ht
    · have : (restore_state u m).sys_data = d := by
        unfold restore_state
        simp only [hl, hr, if_false]
        split <;> rfl
      rw [this]; exact ht


set_option maxRecDepth 1000000 in
/-- Witness of C10: the no-pill flag set by a missed dose survives a second miss, the
turning-interrupted flag set at boot survives the Calibrating step, and the no-pill
flag of a stored record survives `restore_state`. -/
theorem error_flags_sticky_witness :
    after_miss_machine.sys_data.Valid ∧
    after_miss_machine.current_state = .STATE_DISPENSING ∧
    2 ≤ after_miss_machine.sys_data.pills_left ∧
    drop_detected quiet = false ∧
    after_miss_machine.sys_data.error_flags.testBit 2 = true ∧
    (step quiet after_miss_machine).sys_data.error_flags.testBit 2 = true ∧
    (boot false 0 interrupted_eeprom []).sys_data.Valid ∧
    (boot false 0 interrupted_eeprom []).current_state = .STATE_CALIBRATING ∧
    (boot false 0 interrupted_eeprom []).sys_data.error_flags.testBit 4 = true ∧
    (step quiet (boot false 0 interrupted_eeprom [])).sys_data.error_flags.testBit 4 = true ∧
    (storage_load after_miss_machine.eeprom).map (fun d => d.error_flags) = some 4 ∧
    (restore_state 0 after_miss_machine).sys_data.error_flags.testBit 2 = true :=
  ⟨by decide, by decide, by decide, by decide, by decide,
   (error_flags_sticky quiet after_miss_machine (by decide)).1 (by decide) (by decide) 2
     (Or.inr (by decide)) (by decide),
   by decide, by decide, by decide,
   (error_flags_sticky quiet (boot false 0 interrupted_eeprom []) (by decide)).2.1
     (by decide) 4 (by decide) (by decide),
   by decide,
   (error_flags_sticky quiet after_miss_machine (by decide)).2.2 0
     { default_data with pills_left := 6, is_calibrated := 1, total_cycles := 1,
                         error_flags := 4, crc16 := 17084 }
     (by decide) 2 (by decide)⟩

set_option maxRecDepth 1000000 in
/-- Counterexample to C10 as stated: after a missed dose the record has
`error_flags = 0x04` and `pills_left = 6`; the next Dispensing step, in which the pill
drops, ends with `pills_left = 5` (no cycle completed) and `error_flags = 0`. -/
theorem no_pill_flag_cleared_mid_cycle :
    after_miss_machine.current_state = .STATE_DISPENSING ∧
    after_miss_machine.sys_data.pills_left = 6 ∧
    after_miss_machine.sys_data.error_flags = ERROR_NO_PILL ∧
    drop_detected pill_drops = true ∧
    (step pill_drops after_miss_machine).sys_data.pills_left = 5 ∧
    (step pill_drops after_miss_machine).sys_data.error_flags = 0 ∧
    (step pill_drops after_miss_machine).current_state = .STATE_SLEEP_INTERVAL := by
  decide

/-! ### The cycle summary -/

theorem next_dose_eq (i : Inputs) (m : Machine) :
    next_dose i m = dispensing_complete i (dose_record i m) := rfl

/-- The iterations between two doses leave the record, the EEPROM and the link alone. -/
theorem step_between_doses (i : Inputs) (m : Machine)
    (h : m.current_state = .STATE_HANDLE_ERROR ∨ m.current_state = .STATE_SLEEP_INTERVAL) :
    (step i m).sys_data = m.sys_data ∧ (step i m).eeprom = m.eeprom ∧
    (step i m).lora.sent = m.lora.sent ∧
    (step i m).lora.lora_current_state = m.lora.lora_current_state ∧
    (step i m).is_lora_online = m.is_lora_online ∧
    ((step i m).current_state = .STATE_SLEEP_INTERVAL ∨
     (step i m).current_state = .STATE_DISPENSING) := by
  unfold step
  rcases h with h | h
  · rw [h]; simp
  · rw [h]; simp only
    split <;> simp [h]

theorem dose_record_log (i : Inputs) (m : Machine) (p : Nat) (h1 : 1 ≤ p) (h7 : p ≤ 7)
    (hp : m.sys_data.pills_left = p) :
    (dose_record i m).sys_data.pills_left = p - 1 ∧
    (dose_record i m).sys_data.dispense_log =
      m.sys_data.dispense_log.set (7 - p) (if drop_detected i then 1 else 0) := by
  unfold dose_record
  rw [dispensing_record_sys_data]
  simp only [hp]
  have e1 : (p + 256 - 1) % 256 = p - 1 := by omega
  refine ⟨e1, ?_⟩
  simp only [log_update, PILLS_TOTAL, e1]
  have e2 : ((7 : Nat) : Int) - ((p - 1 : Nat) : Int) - 1 = ((7 - p : Nat) : Int) := by omega
  rw [e2]
  have e3 : (0 : Int) ≤ ((7 - p : Nat) : Int) ∧ ((7 - p : Nat) : Int) < 7 := by omega
  simp only [e3, and_self, if_true, Int.toNat_ofNat]

theorem next_dose_log (i : Inputs) (m : Machine) (p : Nat) (h2 : 2 ≤ p) (h7 : p ≤ 7)
    (hp : m.sys_data.pills_left = p) :
    (next_dose i m).sys_data.pills_left = p - 1 ∧
    (next_dose i m).sys_data.dispense_log =
      m.sys_data.dispense_log.set (7 - p) (if drop_detected i then 1 else 0) := by
  obtain ⟨a, b⟩ := dose_record_log i m p (by omega) h7 hp
  rw [next_dose_eq, dispensing_complete_sys_data i _ (by rw [a]; omega)]
  exact ⟨a, b⟩

theorem lora_send_status_state (t : lora_msg_type_t) (d : dispenser_data_t) (u : Nat)
    (l : Lora) :
    (lora_send_status t d u l).2.lora_current_state = l.lora_current_state := by
  unfold lora_send_status lora_send_message send_at_command
  split
  · rfl
  · rfl

theorem send_lora_safe_link_up (t : lora_msg_type_t) (u : Nat) (m : Machine)
    (h : link_up m) : link_up (send_lora_safe t u m) := by
  obtain ⟨h1, h2⟩ := h
  unfold link_up
  refine ⟨by rw [send_lora_safe_is_lora_online]; exact h1, ?_⟩
  unfold send_lora_safe
  simp only [h1, if_true]
  rw [lora_send_status_state]; exact h2

/-- What a connected link sends for a message: the `AT+MSG` command with its text. -/
theorem send_lora_safe_sent (t : lora_msg_type_t) (u : Nat) (m : Machine) (h : link_up m) :
    (send_lora_safe t u m).lora.sent = m.lora.sent ++
      [String.mk (("AT+MSG=" ++ dquote ++ status_msg t m.sys_data u ++ dquote).data.take
        (LORA_CMD_BUFFER_SIZE - 1))] := by
  obtain ⟨h1, h2⟩ := h
  unfold send_lora_safe
  simp only [h1, if_true]
  unfold lora_send_status lora_send_message send_at_command
  simp [h2]

theorem dose_record_link_up (i : Inputs) (m : Machine) (h : link_up m) :
    link_up (dose_record i m) := by
  unfold dose_record dispensing_record
  simp only
  have h0 : link_up { dispensing_advance i { m with current_state := .STATE_DISPENSING } with
      pill_drop_flag := (piezo_pill_detected i.drop_during_wait PIEZO_DETECT_TIMEOUT_MS
        (dispensing_advance i { m with current_state := .STATE_DISPENSING }).pill_drop_flag).2 } := h
  split
  · exact send_lora_safe_link_up _ _ _ (by exact h0)
  · exact send_lora_safe_link_up _ _ _ (by exact h0)

theorem dispensing_complete_link_up (i : Inputs) (m : Machine) (h : link_up m) :
    link_up (dispensing_complete i m) := by
  unfold dispensing_complete
  split
  · exact send_lora_safe_link_up _ _ _ h
  · split <;> exact h

theorem next_dose_link_up (i : Inputs) (m : Machine) (h : link_up m) :
    link_up (next_dose i m) := by
  rw [next_dose_eq]
  exact dispensing_complete_link_up i _ (dose_record_link_up i m h)

theorem step_calibrating_link_up (i : Inputs) (m : Machine) (h : link_up m) :
    link_up (step_calibrating i m) := by
  unfold step_calibrating
  exact send_lora_safe_link_up _ _ _ h

/-- The number of log entries equal to 1 in a log of seven outcomes. -/
theorem success_count_outcomes (d : dispenser_data_t) (b0 b1 b2 b3 b4 b5 b6 : Bool)
    (h : d.dispense_log = [b0, b1, b2, b3, b4, b5, b6].map (fun b => if b then 1 else 0)) :
    success_count d = ([b0, b1, b2, b3, b4, b5, b6].filter id).length := by
  unfold success_count
  rw [h]
  cases b0 <;> cases b1 <;> cases b2 <;> cases b3 <;> cases b4 <;> cases b5 <;> cases b6 <;> rfl

/-- C11: from a record with `pills_left = 7`, `is_calibrated = 0` and an all-zero log
(the default record), the Calibrating step gives `is_calibrated = 1` and WaitForStart;
after six doses the record saved in the seventh, before the completion check, has
`pills_left = 0` and a log whose entry `j` is 1 iff the drop of dose `j` was detected;
`success_count` of that record is the number `k` of detected drops, the cycle-complete
text built from it is `[SUMMARY] Time:<u>s OK:<k> Fail:<7-k> Status:Refilling`, a
connected link sends exactly that text as its last command, and the seventh dose ends
with `pills_left = 7`, a cleared log and WaitForCalibration. -/
theorem cycle_summary (ic i0 i1 i2 i3 i4 i5 i6 : Inputs) (m : Machine)
    (hs : m.current_state = .STATE_CALIBRATING)
    (hp : m.sys_data.pills_left = 7) (_hc : m.sys_data.is_calibrated = 0)
    (hl : m.sys_data.dispense_log = [0, 0, 0, 0, 0, 0, 0]) :
    (step ic m).sys_data.is_calibrated = 1 ∧
    (step ic m).current_state = .STATE_WAIT_FOR_START ∧
    (step ic m).sys_data.pills_left = 7 ∧
    (dose_record i6 (doses [i0, i1, i2, i3, i4, i5] (step ic m))).sys_data.pills_left = 0 ∧
    (dose_record i6 (doses [i0, i1, i2, i3, i4, i5] (step ic m))).sys_data.dispense_log
      = [i0, i1, i2, i3, i4, i5, i6].map (fun i => if drop_detected i then 1 else 0) ∧
    success_count (dose_record i6 (doses [i0, i1, i2, i3, i4, i5] (step ic m))).sys_data
      = ([i0, i1, i2, i3, i4, i5, i6].filter drop_detected).length ∧
    (∀ u, status_msg .MSG_ALL_DONE
        (dose_record i6 (doses [i0, i1, i2, i3, i4, i5] (step ic m))).sys_data u
      = String.mk (("[SUMMARY] Time:" ++ toString u ++ "s OK:" ++
          toString ([i0, i1, i2, i3, i4, i5, i6].filter drop_detected).length ++ " Fail:" ++
          toString ((7 : Int) - (([i0, i1, i2, i3, i4, i5, i6].filter drop_detected).length : Int))
          ++ " Status:Refilling").data.take (LORA_MSG_BUFFER_SIZE - 1))) ∧
    (link_up m →
      (doses [i0, i1, i2, i3, i4, i5, i6] (step ic m)).lora.sent =
        (dose_record i6 (doses [i0, i1, i2, i3, i4, i5] (step ic m))).lora.sent ++
        [String.mk (("AT+MSG=" ++ dquote ++ status_msg .MSG_ALL_DONE
            (dose_record i6 (doses [i0, i1, i2, i3, i4, i5] (step ic m))).sys_data
            (i6.now / 1000) ++ dquote).data.take (LORA_CMD_BUFFER_SIZE - 1))]) ∧
    (doses [i0, i1, i2, i3, i4, i5, i6] (step ic m)).sys_data.pills_left = 7 ∧
    (doses [i0, i1, i2, i3, i4, i5, i6] (step ic m)).sys_data.dispense_log
      = [0, 0, 0, 0, 0, 0, 0] ∧
    (doses [i0, i1, i2, i3, i4, i5, i6] (step ic m)).current_state
      = .STATE_WAIT_FOR_CALIBRATION := by
  have hstep : step ic m = step_calibrating ic m := by unfold step; rw [hs]
  have hcal := step_calibrating_sys_data ic m
  have c1 : (step ic m).sys_data.is_calibrated = 1 := by rw [hstep, hcal]
  have c2 : (step ic m).current_state = .STATE_WAIT_FOR_START := by
    rw [hstep]; simp [step_calibrating]
  have c3 : (step ic m).sys_data.pills_left = 7 := by rw [hstep, hcal]; exact hp
  have c4 : (step ic m).sys_data.dispense_log = [0, 0, 0, 0, 0, 0, 0] := by
    rw [hstep, hcal]; exact hl
  have hup : link_up m →
      link_up (dose_record i6 (doses [i0, i1, i2, i3, i4, i5] (step ic m))) := by
    intro h
    apply dose_record_link_up
    have h0 : link_up (step ic m) := by rw [hstep]; exact step_calibrating_link_up ic m h
    exact next_dose_link_up i5 _ (next_dose_link_up i4 _ (next_dose_link_up i3 _
      (next_dose_link_up i2 _ (next_dose_link_up i1 _ (next_dose_link_up i0 _ h0)))))
  generalize step ic m = mc at c1 c2 c3 c4 hup ⊢
  have hd7 : doses [i0, i1, i2, i3, i4, i5, i6] mc
      = next_dose i6 (doses [i0, i1, i2, i3, i4, i5] mc) := rfl
  have hd6 : doses [i0, i1, i2, i3, i4, i5] mc
      = next_dose i5 (next_dose i4 (next_dose i3 (next_dose i2 (next_dose i1
          (next_dose i0 mc))))) := rfl
  obtain ⟨p1, l1⟩ := next_dose_log i0 mc 7 (by omega) (by omega) c3
  obtain ⟨p2, l2⟩ := next_dose_log i1 _ 6 (by omega) (by omega) p1
  obtain ⟨p3, l3⟩ := next_dose_log i2 _ 5 (by omega) (by omega) p2
  obtain ⟨p4, l4⟩ := next_dose_log i3 _ 4 (by omega) (by omega) p3
  obtain ⟨p5, l5⟩ := next_dose_log i4 _ 3 (by omega) (by omega) p4
  obtain ⟨p6, l6⟩ := next_dose_log i5 _ 2 (by omega) (by omega) p5
  rw [← hd6] at p6 l6
  obtain ⟨p7, l7⟩ := dose_record_log i6 (doses [i0, i1, i2, i3, i4, i5] mc) 1 (by omega)
    (by omega) p6
  rw [l6, l5, l4, l3, l2, l1, c4] at l7
  simp only [Nat.reduceSub, List.set_cons_zero, List.set_cons_succ] at l7
  generalize doses [i0, i1, i2, i3, i4, i5] mc = m6 at hd7 p6 p7 l7 hup ⊢
  have hlog : (dose_record i6 m6).sys_data.dispense_log
      = [drop_detected i0, drop_detected i1, drop_detected i2, drop_detected i3,
         drop_detected i4, drop_detected i5, drop_detected i6].map
          (fun b => if b then 1 else 0) := by
    rw [l7]; simp
  have hcount : success_count (dose_record i6 m6).sys_data
      = ([i0, i1, i2, i3, i4, i5, i6].filter drop_detected).length := by
    rw [success_count_outcomes _ _ _ _ _ _ _ _ hlog]
    simp only [List.filter_cons, List.filter_nil]
    cases drop_detected i0 <;> cases drop_detected i1 <;> cases drop_detected i2 <;>
    cases drop_detected i3 <;> cases drop_detected i4 <;> cases drop_detected i5 <;>
    cases drop_detected i6 <;> simp
  have hzero : (dose_record i6 m6).sys_data.pills_left ≤ 0 := by rw [p7]
  refine ⟨c1, c2, c3, p7, by rw [l7]; simp, hcount, ?_, ?_, ?_, ?_, ?_⟩
  · intro u
    unfold status_msg
    simp only [if_true, hcount]
  · intro h
    rw [hd7, next_dose_eq]
    unfold dispensing_complete
    simp only [hzero, if_true]
    exact send_lora_safe_sent _ _ _ (hup h)
  · rw [hd7, next_dose_eq]
    unfold dispensing_complete
    simp only [hzero, if_true]
    rfl
  · rw [hd7, next_dose_eq]
    unfold dispensing_complete
    simp only [hzero, if_true]
    rfl
  · rw [hd7, next_dose_eq]
    unfold dispensing_complete
    simp only [hzero, if_true]

set_option maxRecDepth 1000000 in
/-- Witness of C11: the first cycle of a fresh device with every drop detected; the
summary text is `OK:7 Fail:0`, and the record agrees with the one the main loop
reaches when each wait is skipped with SW2. -/
theorem cycle_summary_witness :
    (run [press_sw0] fresh_machine).current_state = .STATE_CALIBRATING ∧
    (run [press_sw0] fresh_machine).sys_data.pills_left = 7 ∧
    (run [press_sw0] fresh_machine).sys_data.is_calibrated = 0 ∧
    (run [press_sw0] fresh_machine).sys_data.dispense_log = [0, 0, 0, 0, 0, 0, 0] ∧
    success_count (dose_record pill_drops
        (doses [pill_drops, pill_drops, pill_drops, pill_drops, pill_drops, pill_drops]
          (step homing_ok (run [press_sw0] fresh_machine)))).sys_data
      = ([pill_drops, pill_drops, pill_drops, pill_drops, pill_drops, pill_drops,
          pill_drops].filter drop_detected).length ∧
    ([pill_drops, pill_drops, pill_drops, pill_drops, pill_drops, pill_drops,
      pill_drops].filter drop_detected).length = 7 ∧
    status_msg .MSG_ALL_DONE (dose_record pill_drops
        (doses [pill_drops, pill_drops, pill_drops, pill_drops, pill_drops, pill_drops]
          (step homing_ok (run [press_sw0] fresh_machine)))).sys_data 12
      = "[SUMMARY] Time:12s OK:7 Fail:0 Status:Refilling" ∧
    (dose_record pill_drops last_dose_machine).sys_data
      = (dose_record pill_drops
          (doses [pill_drops, pill_drops, pill_drops, pill_drops, pill_drops, pill_drops]
            (step homing_ok (run [press_sw0] fresh_machine)))).sys_data :=
  have h := cycle_summary homing_ok pill_drops pill_drops pill_drops pill_drops pill_drops
    pill_drops pill_drops (run [press_sw0] fresh_machine) (by decide) (by decide) (by decide)
    (by decide)
  ⟨by decide, by decide, by decide, by decide, h.2.2.2.2.2.1, by decide, by decide, by decide⟩

/-! ### The log ring -/

/-- What logging one message does: at most 62 bytes, the first of them the first byte of
the message, are written from the start of the next slot, and the index moves past that
slot. -/
theorem storage_log_msg_spec (msg : List Nat) (s : LogStore) (b : Nat) (rest : List Nat)
    (hmsg : msg = b :: rest) (hb : b ≠ 0) :
    ∃ data : List Nat, 4 ≤ data.length ∧ data.length ≤ 62 ∧ data.getD 0 0 = b ∧
      (storage_log_msg msg s).eeprom
        = eeprom_write_block s.eeprom (LOG_START_ADDR + next_slot s * LOG_ENTRY_SIZE) data ∧
      (storage_log_msg msg s).current_log_index = next_slot s + 1 := by
  subst hmsg
  have htext : (b :: rest).takeWhile (fun x => decide (x ≠ 0))
      = b :: rest.takeWhile (fun x => decide (x ≠ 0)) := by
    simp [List.takeWhile, hb]
  unfold storage_log_msg
  simp only [htext, List.length_cons, Nat.add_one_ne_zero, if_false]
  generalize rest.takeWhile (fun x => decide (x ≠ 0)) = t
  refine ⟨_, ?_, ?_, ?_, rfl, rfl⟩
  · simp only [List.length_take, List.length_set, List.length_append, List.length_replicate,
      MAX_STRING_LENGTH, LOG_ENTRY_SIZE, List.length_cons]
    split <;> omega
  · simp only [List.length_take, List.length_set, List.length_append, List.length_replicate,
      MAX_STRING_LENGTH, LOG_ENTRY_SIZE, List.length_cons]
    split <;> omega
  · obtain ⟨n, hn⟩ : ∃ n, (if t.length + 1 > MAX_STRING_LENGTH then MAX_STRING_LENGTH
        else t.length + 1) = n + 1 := by
      simp only [MAX_STRING_LENGTH]
      split
      · exact ⟨58, rfl⟩
      · exact ⟨t.length, rfl⟩
    simp only [hn]
    simp [List.take_succ_cons, List.set_cons_succ]

theorem next_slot_of_inv (k : Nat) (s : LogStore) (h : log_inv k s) :
    next_slot s = k % 128 := by
  obtain ⟨h1, _, _⟩ := h
  unfold next_slot
  rw [h1]
  simp only [MAX_LOG_ENTRIES, LOG_TOTAL_SIZE, LOG_ENTRY_SIZE]
  split <;> split <;> omega

theorem text_message_cons (msg : List Nat) (h : text_message msg) :
    ∃ b rest, msg = b :: rest ∧ 0 < b ∧ b < 255 := by
  cases msg with
  | nil => exact absurd h (by simp [text_message])
  | cons b rest => exact ⟨b, rest, rfl, h⟩

/-- Logging one more message keeps the ring state, writes only inside slot `k % 128`
and leaves the index at `k % 128 + 1`. -/
theorem log_inv_step (k : Nat) (s : LogStore) (msg : List Nat) (h : log_inv k s)
    (hm : text_message msg) :
    log_inv (k + 1) (storage_log_msg msg s) ∧
    (storage_log_msg msg s).current_log_index = k % 128 + 1 ∧
    (∀ a, a < k % 128 * 64 ∨ k % 128 * 64 + 64 ≤ a →
      (storage_log_msg msg s).eeprom a = s.eeprom a) ∧
    (storage_log_msg msg s).eeprom (k % 128 * 64) = msg.getD 0 0 := by
  obtain ⟨b, rest, hmsg, hb0, hb255⟩ := text_message_cons msg hm
  obtain ⟨data, hd4, hd62, hd0, he, hi⟩ := storage_log_msg_spec msg s b rest hmsg (by omega)
  have hslot := next_slot_of_inv k s h
  obtain ⟨h1, h2, h3⟩ := h
  rw [hslot] at he hi
  simp only [LOG_START_ADDR, LOG_ENTRY_SIZE, Nat.zero_add] at he
  have hout : ∀ a, a < k % 128 * 64 ∨ k % 128 * 64 + 64 ≤ a →
      (storage_log_msg msg s).eeprom a = s.eeprom a := by
    intro a ha
    rw [he]
    unfold eeprom_write_block
    have : ¬ (k % 128 * 64 ≤ a ∧ a < k % 128 * 64 + data.length) := by omega
    simp only [this, if_false]
  have hin : (storage_log_msg msg s).eeprom (k % 128 * 64) = b := by
    rw [he]
    unfold eeprom_write_block
    have : k % 128 * 64 ≤ k % 128 * 64 ∧ k % 128 * 64 < k % 128 * 64 + data.length := by omega
    simp only [this, and_self, if_true, Nat.sub_self, hd0]
    omega
  refine ⟨⟨?_, ?_, ?_⟩, hi, hout, ?_⟩
  · rw [hi]; simp
  · intro j hj hjk
    by_cases hjs : j = k % 128
    · rw [hjs, hin]; omega
    · rw [hout (j * 64) (by omega)]
      exact h2 j hj (by omega)
  · intro j hj hjk
    rw [hout (j * 64) (by omega)]
    exact h3 j hj (by omega)
  · rw [hin, hmsg]; rfl

theorem log_inv_erased : log_inv 0 erased_log := by
  refine ⟨by decide, ?_, ?_⟩
  · intro j _ h; omega
  · intro j _ _; rfl

theorem log_all_inv (msgs : List (List Nat)) (hm : ∀ msg ∈ msgs, text_message msg) :
    ∀ (k : Nat) (s : LogStore), log_inv k s → log_inv (k + msgs.length) (log_all msgs s) := by
  induction msgs with
  | nil => intro k s h; exact h
  | cons msg t ih =>
    intro k s h
    have h1 := (log_inv_step k s msg h (hm msg (List.mem_cons_self _ _))).1
    have h2 := ih (fun x hx => hm x (List.mem_cons_of_mem _ hx)) (k + 1) _ h1
    have e : k + (msg :: t).length = k + 1 + t.length := by simp; omega
    rw [e]
    exact h2

theorem find_range_none (p : Nat → Bool) (n : Nat) (h : ∀ j, j < n → p j = false) :
    (List.range n).find? p = none := by
  rw [List.find?_eq_none]
  intro x hx
  rw [List.mem_range] at hx
  simp [h x hx]

theorem find_range_some (p : Nat → Bool) (n k : Nat) (hk : k < n) (hp : p k = true)
    (h : ∀ j, j < k → p j = false) : (List.range n).find? p = some k := by
  induction n with
  | zero => omega
  | succ n ih =>
    rw [List.range_succ, List.find?_append]
    by_cases hkn : k < n
    · rw [ih hkn]; rfl
    · have e : k = n := by omega
      subst e
      rw [find_range_none p k h]
      simp [hp]

theorem scan_slot_empty (e : EEPROM) (j : Nat) :
    (decide ((eeprom_read_block e (LOG_START_ADDR + j * LOG_ENTRY_SIZE) LOG_ENTRY_SIZE).getD 0 0
        = 0 ∨
      (eeprom_read_block e (LOG_START_ADDR + j * LOG_ENTRY_SIZE) LOG_ENTRY_SIZE).getD 0 0
        = 0xFF))
      = decide (e (j * 64) % 256 = 0 ∨ e (j * 64) % 256 = 255) := by
  have : (eeprom_read_block e (LOG_START_ADDR + j * LOG_ENTRY_SIZE) LOG_ENTRY_SIZE).getD 0 0
      = e (j * 64) % 256 := by
    simp [eeprom_read_block, LOG_START_ADDR, LOG_ENTRY_SIZE, List.range_succ_eq_map]
  rw [this]

/-- The scan on a ring in which `k` messages were logged: the slot after the last one
while the ring is not full, and 0 once every slot holds a message. -/
theorem scan_of_inv (k : Nat) (s : LogStore) (h : log_inv k s) :
    storage_scan_logs s.eeprom = (if k < 128 then k else 0) := by
  obtain ⟨_, h2, h3⟩ := h
  unfold storage_scan_logs
  simp only [scan_slot_empty]
  have hN : MAX_LOG_ENTRIES = 128 := by decide
  rw [hN]
  by_cases hk : k < 128
  · rw [find_range_some _ 128 k hk (by simp [h3 k hk (le_refl _)])
      (fun j hj => by
        have := h2 j (by omega) hj
        simp [this.1, this.2])]
    simp [hk]
  · rw [find_range_none _ 128 (fun j hj => by
        have := h2 j hj (by omega)
        simp [this.1, this.2])]
    simp [hk]

theorem log_all_take_succ (msgs : List (List Nat)) (k : Nat) (hk : k < msgs.length)
    (s : LogStore) :
    log_all (msgs.take (k + 1)) s = storage_log_msg (msgs.getD k []) (log_all (msgs.take k) s) := by
  unfold log_all
  rw [List.take_succ, List.foldl_append]
  simp [List.getD_eq_getElem?_getD, hk]

/-- C12 (as amended): on an erased ring, for every list of messages whose first byte
is neither 0 nor `0xFF`, message number `k + 1` goes to slot `k % 128` (so message 129
goes to slot 0), leaves the index at `k % 128 + 1`, changes no byte outside the 64 bytes
of that slot and puts its first byte at the start of the slot; the scan at the next
boot gives the slot after the last one written while fewer than 128 messages were
logged, and 0 once 128 or more were: then no slot is empty. -/
theorem log_ring_wrap (msgs : List (List Nat)) (hm : ∀ msg ∈ msgs, text_message msg) :
    (∀ k, k < msgs.length →
      log_all (msgs.take (k + 1)) erased_log
        = storage_log_msg (msgs.getD k []) (log_all (msgs.take k) erased_log) ∧
      next_slot (log_all (msgs.take k) erased_log) = k % 128 ∧
      (log_all (msgs.take (k + 1)) erased_log).current_log_index = k % 128 + 1 ∧
      (∀ a, a < k % 128 * 64 ∨ k % 128 * 64 + 64 ≤ a →
        (log_all (msgs.take (k + 1)) erased_log).eeprom a
          = (log_all (msgs.take k) erased_log).eeprom a) ∧
      (log_all (msgs.take (k + 1)) erased_log).eeprom (k % 128 * 64)
        = (msgs.getD k []).getD 0 0) ∧
    (msgs.length < 128 →
      storage_scan_logs (log_all msgs erased_log).eeprom = msgs.length) ∧
    (128 ≤ msgs.length →
      storage_scan_logs (log_all msgs erased_log).eeprom = 0 ∧
      ∀ j, j < 128 → (log_all msgs erased_log).eeprom (j * 64) % 256 ≠ 0 ∧
        (log_all msgs erased_log).eeprom (j * 64) % 256 ≠ 255) := by
  have hinv : log_inv msgs.length (log_all msgs erased_log) := by
    have := log_all_inv msgs hm 0 erased_log log_inv_erased
    simpa using this
  refine ⟨?_, ?_, ?_⟩
  · intro k hk
    have hmk : ∀ msg ∈ msgs.take k, text_message msg :=
      fun msg hx => hm msg (List.mem_of_mem_take hx)
    have hk_inv : log_inv k (log_all (msgs.take k) erased_log) := by
      have := log_all_inv (msgs.take k) hmk 0 erased_log log_inv_erased
      simpa [List.length_take, Nat.min_eq_left (Nat.le_of_lt hk)] using this
    have hmem : text_message (msgs.getD k []) := by
      apply hm
      rw [List.getD_eq_getElem _ _ hk]
      exact List.getElem_mem _
    obtain ⟨_, b, c, d⟩ := log_inv_step k _ (msgs.getD k []) hk_inv hmem
    rw [log_all_take_succ msgs k hk]
    exact ⟨rfl, next_slot_of_inv k _ hk_inv, b, c, d⟩
  · intro h
    rw [scan_of_inv _ _ hinv]
    simp [h]
  · intro h
    refine ⟨?_, fun j hj => hinv.2.1 j hj (by omega)⟩
    rw [scan_of_inv _ _ hinv]
    have : ¬ msgs.length < 128 := by omega
    simp [this]

set_option maxRecDepth 100000 in
/-- Witness of C12: 130 messages `Hi`; the last one goes to slot 1, the scan gives 0. -/
theorem log_ring_wrap_witness :
    (∀ msg ∈ List.replicate 130 [72, 105], text_message msg) ∧
    129 < (List.replicate 130 [72, 105]).length ∧
    next_slot (log_all ((List.replicate 130 [72, 105]).take 129) erased_log) = 129 % 128 ∧
    128 ≤ (List.replicate 130 [72, 105]).length ∧
    storage_scan_logs (log_all (List.replicate 130 [72, 105]) erased_log).eeprom = 0 :=
  have h := log_ring_wrap (List.replicate 130 [72, 105]) (by decide)
  ⟨by decide, by decide, ((h.1 129 (by decide)).2.1), by decide, (h.2.2 (by decide)).1⟩

set_option maxRecDepth 100000 in
/-- Counterexample to C12 as stated: after 129 messages `A` the last one written is
slot 0 and the running index is 1, but slot 1 still starts with a message byte and the
scan gives 0, not 1. -/
theorem scan_after_wrap_is_zero :
    (∀ msg ∈ List.replicate 129 [65], text_message msg) ∧
    (log_all (List.replicate 129 [65]) erased_log).current_log_index = 1 ∧
    ((log_all (List.replicate 129 [65]) erased_log).eeprom (1 * 64) % 256 ≠ 0 ∧
     (log_all (List.replicate 129 [65]) erased_log).eeprom (1 * 64) % 256 ≠ 255) ∧
    storage_scan_logs (log_all (List.replicate 129 [65]) erased_log).eeprom = 0 ∧
    storage_scan_logs (log_all (List.replicate 129 [65]) erased_log).eeprom ≠
      (log_all (List.replicate 129 [65]) erased_log).current_log_index := by
  have hm : ∀ msg ∈ List.replicate 129 [65], text_message msg := by decide
  have hinv : log_inv 129 (log_all (List.replicate 129 [65]) erased_log) := by
    have := log_all_inv (List.replicate 129 [65]) hm 0 erased_log log_inv_erased
    simpa using this
  have hscan := scan_of_inv _ _ hinv
  have hidx : (log_all (List.replicate 129 [65]) erased_log).current_log_index = 1 := by
    rw [hinv.1]; decide
  refine ⟨hm, hidx, hinv.2.1 1 (by decide) (by decide), ?_, ?_⟩
  · rw [hscan]; decide
  · rw [hscan, hidx]; decide

/-! ### Counters -/

theorem dispensing_complete_counters (i : Inputs) (m : Machine) :
    (dispensing_complete i m).sys_data.total_cycles = m.sys_data.total_cycles ∧
    (dispensing_complete i m).sys_data.total_dispensed = m.sys_data.total_dispensed := by
  unfold dispensing_complete
  split
  · simp
  · split <;> exact ⟨rfl, rfl⟩

/-- C13 (as amended): every Dispensing step, whether or not it completes the cycle,
leaves `total_cycles` one more and `total_dispensed` one more iff the drop was
detected, both modulo `2^16`: below 65535 the counter grows by exactly that amount, at
65535 it wraps to 0.  No Dispensing step resets the counters. -/
theorem dispensing_counters (i : Inputs) (m : Machine)
    (hs : m.current_state = .STATE_DISPENSING) :
    (step i m).sys_data.total_cycles = (m.sys_data.total_cycles + 1) % 65536 ∧
    (step i m).sys_data.total_dispensed =
      (if drop_detected i then (m.sys_data.total_dispensed + 1) % 65536
       else m.sys_data.total_dispensed) ∧
    (m.sys_data.total_cycles < 65535 →
      (step i m).sys_data.total_cycles = m.sys_data.total_cycles + 1) ∧
    (m.sys_data.total_dispensed < 65535 →
      (step i m).sys_data.total_dispensed =
        m.sys_data.total_dispensed + (if drop_detected i then 1 else 0) ∧
      m.sys_data.total_dispensed ≤ (step i m).sys_data.total_dispensed) ∧
    (m.sys_data.total_cycles = 65535 → (step i m).sys_data.total_cycles = 0) := by
  have hstep : step i m = dispensing_complete i (dispensing_record i (dispensing_advance i m)) := by
    unfold step; rw [hs]; rfl
  obtain ⟨hc, hd⟩ := dispensing_complete_counters i (dispensing_record i (dispensing_advance i m))
  have hrec := dispensing_record_sys_data i m
  have h1 : (step i m).sys_data.total_cycles = (m.sys_data.total_cycles + 1) % 65536 := by
    rw [hstep, hc, hrec]
  have h2 : (step i m).sys_data.total_dispensed =
      (if drop_detected i then (m.sys_data.total_dispensed + 1) % 65536
       else m.sys_data.total_dispensed) := by
    rw [hstep, hd, hrec]
  refine ⟨h1, h2, ?_, ?_, ?_⟩
  · intro h; rw [h1]; omega
  · intro h
    rw [h2]
    cases drop_detected i
    · simp
    · simp only [if_true]; omega
  · intro h; rw [h1, h]

set_option maxRecDepth 1000000 in
/-- Witness of C13: the seventh dose of the first cycle. -/
theorem dispensing_counters_witness :
    last_dose_machine.current_state = .STATE_DISPENSING ∧
    last_dose_machine.sys_data.total_cycles = 6 ∧
    (step pill_drops last_dose_machine).sys_data.total_cycles = (6 + 1) % 65536 :=
  ⟨by decide, by decide,
   by rw [(dispensing_counters pill_drops last_dose_machine (by decide)).1]; decide⟩

set_option maxRecDepth 1000000 in
/-- Counterexample to C13 as stated: the seventh dose of the first cycle completes the
cycle (`pills_left` is reset to 7) and leaves both counters at 7, not 0; and a dose
that does not complete the cycle, entered with `total_cycles = 65535`, leaves
`total_cycles = 0`, less than before. -/
theorem counters_not_reset_at_completion :
    last_dose_machine.current_state = .STATE_DISPENSING ∧
    last_dose_machine.sys_data.pills_left = 1 ∧
    last_dose_machine.sys_data.total_dispensed = 6 ∧
    last_dose_machine.sys_data.total_cycles = 6 ∧
    (step pill_drops last_dose_machine).sys_data.pills_left = 7 ∧
    (step pill_drops last_dose_machine).current_state = .STATE_WAIT_FOR_CALIBRATION ∧
    (step pill_drops last_dose_machine).sys_data.total_dispensed = 7 ∧
    (step pill_drops last_dose_machine).sys_data.total_cycles = 7 ∧
    (step pill_drops { ready_machine with
        sys_data := { ready_machine.sys_data with total_cycles := 65535 } }).sys_data.pills_left
      = 6 ∧
    (step pill_drops { ready_machine with
        sys_data := { ready_machine.sys_data with total_cycles := 65535 } }).sys_data.total_cycles
      = 0 := by
  decide

/-! ### The drop latch -/

/-- The `uint32_t` difference `to_ms_since_boot(...) - start_time` that the loop test of
`piezo_pill_detected` computes after `k` calls of `sleep_ms(10)` is `(10 * k) % 2 ^ 32`,
whatever `start_time` was. -/
theorem uint32_elapsed (start_time k : Nat) (h : start_time < 2 ^ 32) :
    ((start_time + 10 * k) % 2 ^ 32 + 2 ^ 32 - start_time) % 2 ^ 32 = (10 * k) % 2 ^ 32 := by
  omega

/-- Whatever the interrupts, the polling loop returns within its recursion budget once
some loop test `n` within the budget fails, after at most `n` sleeps. -/
theorem piezo_wait_returns (irq : Nat → Bool) (t n : Nat) (hn : ¬ (10 * n) % 2 ^ 32 < t)
    (fuel k : Nat) (flag : Bool) (hk : k ≤ n) (hf : n < k + fuel) :
    (piezo_wait irq t fuel k flag).returned = true ∧
    k ≤ (piezo_wait irq t fuel k flag).sleeps ∧
    (piezo_wait irq t fuel k flag).sleeps ≤ n := by
  induction fuel generalizing k flag with
  | zero => omega
  | succ f ih =>
    unfold piezo_wait
    by_cases hg : (10 * k) % 2 ^ 32 < t
    · simp only [hg, if_true]
      generalize (if irq k = true then gpio_irq_handler PIEZO_PIN GPIO_IRQ_EDGE_FALL flag
        else flag) = flag1
      cases flag1
      · simp only [Bool.false_eq_true, if_false]
        have hkn : k ≠ n := by
          intro e; subst e; exact hn hg
        obtain ⟨h1, h2, h3⟩ := ih (k + 1) false (by omega) (by omega)
        exact ⟨h1, by omega, h3⟩
      · simp only [if_true]
        exact ⟨trivial, le_refl _, hk⟩
    · simp only [hg, if_false]
      exact ⟨trivial, le_refl _, hk⟩

/-- The first loop test that fails, for a timeout below 4294967295: test
`(timeout_ms + 9) / 10` up to 4294967290, and test 858993459 above, where the elapsed
time has wrapped once and reads 4294967294. -/
theorem piezo_exit_test (timeout_ms : Nat) (ht : timeout_ms < 4294967295) :
    ¬ (10 * (if timeout_ms ≤ 4294967290 then (timeout_ms + 9) / 10 else 858993459)) % 2 ^ 32
        < timeout_ms ∧
    ∀ j, j < (if timeout_ms ≤ 4294967290 then (timeout_ms + 9) / 10 else 858993459) →
      (10 * j) % 2 ^ 32 < timeout_ms := by
  by_cases h : timeout_ms ≤ 4294967290
  · simp only [h, if_true]
    constructor
    · omega
    · intro j hj
      omega
  · simp only [h, if_false]
    constructor
    · omega
    · intro j hj
      rcases Nat.lt_or_ge j 429496730 with h1 | h1
      · rw [Nat.mod_eq_of_lt (by omega)]
        omega
      · rw [Nat.mod_eq_sub_mod (by omega), Nat.mod_eq_of_lt (by omega)]
        omega

/-- For every timeout below 4294967295 a call of `piezo_pill_detected` returns, whatever
the latch holds and whatever interrupts occur; for the timeouts up to 4294967290 it does
so after at most `(timeout_ms + 9) / 10` sleeps. -/
theorem piezo_pill_detected_returns (irq : Nat → Bool) (timeout_ms : Nat) (flag : Bool)
    (ht : timeout_ms < 4294967295) :
    (piezo_pill_detected irq timeout_ms flag).returned = true ∧
    (piezo_pill_detected irq timeout_ms flag).sleeps
      ≤ (if timeout_ms ≤ 4294967290 then (timeout_ms + 9) / 10 else 858993459) := by
  unfold piezo_pill_detected
  cases flag
  · simp only [Bool.false_eq_true, if_false]
    have h := piezo_wait_returns irq timeout_ms _ (piezo_exit_test timeout_ms ht).1
      (timeout_ms + 1) 0 false (Nat.zero_le _) (by split <;> omega)
    exact ⟨h.1, h.2.2⟩
  · simp only [if_true]
    exact ⟨trivial, Nat.zero_le _⟩

end PillDispenser
